import Mathlib

/-!
Verification development for the PDF accessibility engine
(`pdf_engine/analyzer.py`, `pdf_engine/remediator.py`, `app.py`).

The Python code is shallowly embedded: the PyMuPDF document object model is
captured by a `Doc` structure whose fields are exactly the accessor results
the engine consumes (text spans, images, drawings, widgets, links, words,
outline, catalog / xref key lookup).  Accessors that can raise in Python
(`pdf_catalog`, `xref_get_key`, `get_drawings`, `widgets`) are modelled as
`Except Unit`-valued; the `try/except` blocks of the source appear as
explicit `match`es on those results, placed exactly where the source has
them.  Python floats are modelled as exact rationals (for the geometry and
font sizes) and as real numbers (for the luminance / contrast arithmetic,
which uses a non-integral power).  Free-form English `description` /
`remediation` strings and the `element_info` dictionary of an issue are
presentational and interpolate formatted numbers; they are elided from the
`Issue` record — no claim refers to their contents.
-/

/-! ### Severity ranking and score (analyzer.get_score / _sev_rank) -/

/-- `PDFAccessibilityAnalyzer._sev_rank`:
`{"minor": 1, "moderate": 2, "serious": 3, "critical": 4}.get(s, 0)`. -/
def sevRank (s : String) : Nat :=
  if s = "minor" then 1
  else if s = "moderate" then 2
  else if s = "serious" then 3
  else if s = "critical" then 4
  else 0

/-- The `severity_deductions` table of `get_score`:
`{"critical": 20, "serious": 12, "moderate": 6, "minor": 2}` with
`.get(sev, 5)` default. -/
def severityDeduction (s : String) : Int :=
  if s = "critical" then 20
  else if s = "serious" then 12
  else if s = "moderate" then 6
  else if s = "minor" then 2
  else 5

/-- An accessibility issue (`AccessibilityIssue` dataclass), restricted to the
machine-relevant fields (see the header comment for the elided
presentational fields). -/
structure Issue where
  issueId : String
  wcagCriterion : String
  wcagTitle : String
  level : String
  severity : String
  page : Nat
  title : String
  autoFixable : Bool
  rect : Option (ℚ × ℚ × ℚ × ℚ)
  deriving Repr, DecidableEq

/-- One step of the `worst` dictionary construction in `get_score`: insert
criterion `c` with severity `s`, replacing an existing entry only when the
new severity ranks strictly higher (`_sev_rank(new) > _sev_rank(cur)`).
Python dicts preserve insertion order, hence the association list. -/
def updWorst (acc : List (String × String)) (c s : String) : List (String × String) :=
  match acc with
  | [] => [(c, s)]
  | (c', s') :: rest =>
      if c' = c then
        (if sevRank s' < sevRank s then (c', s) else (c', s')) :: rest
      else
        (c', s') :: updWorst rest c s

/-- The `worst` dictionary of `get_score` after folding all issues. -/
def worstFold (issues : List Issue) : List (String × String) :=
  issues.foldl (fun acc i => updWorst acc i.wcagCriterion i.severity) []

/-- `PDFAccessibilityAnalyzer.get_score`: sum the deductions of the worst
severity per criterion and clamp `100 - total` to `[0, 100]`. -/
def getScore (issues : List Issue) : Int :=
  let total := ((worstFold issues).map (fun p => severityDeduction p.2)).sum
  max 0 (100 - total)

/-! #### Specification-side reformulation of the score

The spec describes the total as a sum over the criteria having at least one
finding of the deduction of that criterion's highest-severity finding.  The
deduction table factors through the rank (`dOfRank` below), so "the
deduction of a highest-severity finding" is well defined even when several
findings tie at the maximal rank. -/

/-- Deduction as a function of the severity rank: ranks 1–4 are the four
recognized severities, rank 0 is any unrecognized severity (deduction 5). -/
def dOfRank (r : Nat) : Int :=
  if r = 1 then 2
  else if r = 2 then 6
  else if r = 3 then 12
  else if r = 4 then 20
  else 5

/-- First-occurrence deduplication (the key order of a Python dict). -/
def firstDedup : List String → List String
  | [] => []
  | c :: rest => c :: (firstDedup (rest.filter (fun c' => ¬ (c' = c))))
termination_by l => l.length
decreasing_by
  simpa using Nat.lt_succ_of_le (List.length_filter_le _ rest)

/-- Highest severity rank among the findings of criterion `c`. -/
def maxRankOf (issues : List Issue) (c : String) : Nat :=
  ((issues.filter (fun i => i.wcagCriterion = c)).map (fun i => sevRank i.severity)).foldr max 0

/-- The spec's description of the total deduction: one term per criterion
with at least one finding, equal to the deduction of that criterion's
highest-severity finding. -/
def specTotal (issues : List Issue) : Int :=
  ((firstDedup (issues.map (fun i => i.wcagCriterion))).map
    (fun c => dOfRank (maxRankOf issues c))).sum

/-- The spec's score formula. -/
def specScore (issues : List Issue) : Int :=
  max 0 (100 - specTotal issues)

/-! #### Equivalence of `get_score` with the spec's per-criterion formula -/

/-- The rank-annotated view of the `worst` association list. -/
def rankAnnot (l : List (String × String)) : List (String × Nat) :=
  l.map (fun p => (p.1, sevRank p.2))

/-! ### Document model (the PyMuPDF accessors the engine consumes)

Accessors that sit inside a `try/except` in the source (`pdf_catalog`,
`xref_get_key`, `get_drawings`, `widgets()`) are `Except Unit`-valued;
`.error ()` models a raised exception.  `xref_get_key` results are modelled
as the *value* string (the normalisation `_xref_val` performs); a missing
key yields the value `"null"`, as PyMuPDF returns. -/

/-- A rectangle `(x0, y0, x1, y1)` in PDF points, exact rationals. -/
abbrev PdfRect := ℚ × ℚ × ℚ × ℚ

/-- One text span of `page.get_text("dict")`. -/
structure Span where
  text : String
  size : ℚ
  flags : Nat
  color : Nat
  bbox : PdfRect
  deriving Repr, DecidableEq

/-- One block of `page.get_text("dict")`; `btype = 0` is a text block. -/
structure Block where
  btype : Nat
  lines : List (List Span)
  deriving Repr, DecidableEq

/-- One path of `page.get_drawings()`: optional fill colour (float RGB in
`[0,1]`) and optional rectangle. -/
structure Drawing where
  fill : Option (ℚ × ℚ × ℚ)
  rect : Option PdfRect
  deriving Repr, DecidableEq

/-- One entry of `page.get_images(full=True)` together with its placement
rectangles (`page.get_image_rects(xref)`). -/
structure Image where
  xref : Nat
  width : Nat
  height : Nat
  rects : List PdfRect
  deriving Repr, DecidableEq

/-- One interactive form widget of `page.widgets()`. -/
structure Widget where
  fieldName : Option String
  fieldLabel : Option String
  fieldTooltip : Option String
  rect : PdfRect
  deriving Repr, DecidableEq

/-- One link annotation of `page.get_links()`. -/
structure LinkAnn where
  uri : Option String
  pageTarget : Option Nat
  fromRect : PdfRect
  deriving Repr, DecidableEq

/-- One word of `page.get_text("words")`: bbox and text. -/
structure Word where
  rect : PdfRect
  text : String
  deriving Repr, DecidableEq

/-- An invisible OCR text-layer line written by the remediator
(`TextWriter.append` at a position, then `write_text(render_mode=3)`). -/
abbrev OverlayLine := ℚ × ℚ × String

/-- One page of the document. -/
structure Page where
  blocks : List Block
  images : List Image
  drawings : Except Unit (List Drawing)
  widgets : Except Unit (List Widget)
  links : List LinkAnn
  words : List Word
  xref : Nat
  rect : PdfRect
  rawText : String
  overlays : List OverlayLine

/-- The document handle (`fitz.Document`). -/
structure Doc where
  metadataTitle : Option String
  toc : List (Nat × String × Nat)
  pages : List Page
  pdfCatalog : Except Unit Nat
  xrefGetKey : Nat → String → Except Unit String
  xrefLength : Nat

/-! ### Analyzer helpers -/

/-- Drop leading and trailing characters satisfying `p` (Python's
`str.strip` family). -/
def stripList (p : Char → Bool) (l : List Char) : List Char :=
  (((l.dropWhile p).reverse.dropWhile p).reverse)

/-- Python's `str.strip()`: remove leading and trailing whitespace. -/
def pyStrip (s : String) : String :=
  String.mk (stripList Char.isWhitespace s.data)

/-- Substring search on character lists (Python's `in` on strings). -/
def containsSub (hay pat : List Char) : Bool :=
  match hay with
  | [] => pat.isEmpty
  | _ :: t => pat.isPrefixOf hay || containsSub t pat

def strContainsSub (hay pat : String) : Bool :=
  containsSub hay.data pat.data

/-- `fitz.Rect.contains`: the inner rectangle lies inside the outer one. -/
abbrev rectContains (outer inner : PdfRect) : Prop :=
  outer.1 ≤ inner.1 ∧ outer.2.1 ≤ inner.2.1 ∧
  inner.2.2.1 ≤ outer.2.2.1 ∧ inner.2.2.2 ≤ outer.2.2.2

/-- `fitz.Rect.intersects`: the two rectangles share a non-empty interior
rectangle. -/
abbrev rectIntersects (a b : PdfRect) : Prop :=
  max a.1 b.1 < min a.2.2.1 b.2.2.1 ∧ max a.2.1 b.2.1 < min a.2.2.2 b.2.2.2

/-- `PDFAccessibilityAnalyzer._is_tagged`: non-null `StructTreeRoot` or
`MarkInfo` in the catalog; any lookup failure yields `False`. -/
def isTagged (d : Doc) : Bool :=
  match d.pdfCatalog with
  | .error _ => false
  | .ok cat =>
    match d.xrefGetKey cat "StructTreeRoot" with
    | .error _ => false
    | .ok st =>
      if st ≠ "" ∧ st ≠ "null" then true
      else
        match d.xrefGetKey cat "MarkInfo" with
        | .error _ => false
        | .ok mi => decide (mi ≠ "" ∧ mi ≠ "null")

/-- `str.strip("()")` of Python: drop `(` and `)` from both ends. -/
def isParenChar (c : Char) : Bool := c = '(' || c = ')'

def stripParens (s : String) : String :=
  String.mk (((s.data.dropWhile isParenChar).reverse.dropWhile isParenChar).reverse)

/-- The catalog `/Lang` value as computed in `_check_document_language`
(empty string when absent, null, or on a lookup failure). -/
def docLanguage (d : Doc) : String :=
  match d.pdfCatalog with
  | .error _ => ""
  | .ok cat =>
    match d.xrefGetKey cat "Lang" with
    | .error _ => ""
    | .ok raw => if raw ≠ "" ∧ raw ≠ "null" then stripParens raw else ""

/-! ### Findings -/

/-- The per-check payload of `_add` (criterion, severity, page, title,
auto-fixable, rect); `_add` fills in id, WCAG title and level. -/
structure PreIssue where
  wcagCriterion : String
  severity : String
  page : Nat
  title : String
  autoFixable : Bool
  rect : Option PdfRect
  deriving Repr, DecidableEq

/-- `WCAG_RULES[c]["title"]` (empty for an unknown criterion). -/
def wcagTitleOf (c : String) : String :=
  if c = "1.1.1" then "Non-text Content"
  else if c = "1.3.1" then "Info and Relationships"
  else if c = "1.3.2" then "Meaningful Sequence"
  else if c = "1.4.3" then "Contrast (Minimum)"
  else if c = "2.4.2" then "Page Titled"
  else if c = "2.4.4" then "Link Purpose (In Context)"
  else if c = "2.4.5" then "Multiple Ways"
  else if c = "2.4.6" then "Headings and Labels"
  else if c = "3.1.1" then "Language of Page"
  else if c = "4.1.2" then "Name, Role, Value"
  else ""

/-- `WCAG_RULES[c]["level"]` with the `"A"` default of `_add`. -/
def wcagLevelOf (c : String) : String :=
  if c = "1.4.3" ∨ c = "2.4.5" ∨ c = "2.4.6" then "AA" else "A"

/-- Zero-padding of `_new_id`'s `f"issue-{n:04d}"`. -/
def pad4 (n : Nat) : String :=
  let s := toString n
  if s.length < 4 then String.mk (List.replicate (4 - s.length) '0') ++ s else s

def newId (n : Nat) : String := "issue-" ++ pad4 n

/-- `_add`: build the full issue from the payload, the rules table and the
current id counter (the counter is incremented before formatting). -/
def mkIssue (counter : Nat) (p : PreIssue) : Issue :=
  { issueId := newId counter
    wcagCriterion := p.wcagCriterion
    wcagTitle := wcagTitleOf p.wcagCriterion
    level := wcagLevelOf p.wcagCriterion
    severity := p.severity
    page := p.page
    title := p.title
    autoFixable := p.autoFixable
    rect := p.rect }

/-- The analyzer's mutable state: `self.issues` and `self._counter`. -/
structure AState where
  issues : List Issue
  counter : Nat
  deriving DecidableEq

def addOne (s : AState) (p : PreIssue) : AState :=
  { issues := s.issues ++ [mkIssue (s.counter + 1) p], counter := s.counter + 1 }

/-- Run a sequence of `_add` calls. -/
def addAll (s : AState) (ps : List PreIssue) : AState :=
  ps.foldl addOne s

/-- Issues numbered from counter value `c` (the effect of `addAll` on the
issue list). -/
def numberFrom (c : Nat) : List PreIssue → List Issue
  | [] => []
  | p :: ps => mkIssue (c + 1) p :: numberFrom (c + 1) ps

/-! ### The ten checks -/

/-- `_check_document_title` (WCAG 2.4.2). -/
def checkDocumentTitle (d : Doc) : List PreIssue :=
  if pyStrip (d.metadataTitle.getD "") = "" then
    [{ wcagCriterion := "2.4.2", severity := "serious", page := 0,
       title := "Missing Document Title", autoFixable := true, rect := none }]
  else []

/-- `_check_document_language` (WCAG 3.1.1). -/
def checkDocumentLanguage (d : Doc) : List PreIssue :=
  if docLanguage d = "" then
    [{ wcagCriterion := "3.1.1", severity := "serious", page := 0,
       title := "Missing Document Language", autoFixable := true, rect := none }]
  else []

/-- `_check_tagged_pdf` (WCAG 1.3.1). -/
def checkTaggedPdf (d : Doc) : List PreIssue :=
  if isTagged d = false then
    [{ wcagCriterion := "1.3.1", severity := "critical", page := 0,
       title := "PDF is Not Tagged", autoFixable := false, rect := none }]
  else []

/-- `_check_bookmarks` (WCAG 2.4.5): `page_count > 1 and not get_toc()`. -/
def checkBookmarks (d : Doc) : List PreIssue :=
  if 1 < d.pages.length ∧ d.toc = [] then
    [{ wcagCriterion := "2.4.5", severity := "moderate", page := 0,
       title := "No Bookmarks / Navigation", autoFixable := false, rect := none }]
  else []

/-- `_collect_figure_alt_xrefs`: xrefs whose `S` value contains `/Figure`
and that carry non-null `Alt` and `K` values; per-xref lookup failures are
skipped (`continue`).  (This helper reads the raw `xref_get_key` result
without `_xref_val`; the model uses the value string with substring
membership, the string-API behaviour the surrounding code is written
for.) -/
def figureAltScan (d : Doc) : List Nat → List Nat
  | [] => []
  | x :: rest =>
    match d.xrefGetKey x "S" with
    | .error _ => figureAltScan d rest
    | .ok s =>
      if strContainsSub s "/Figure" = false then figureAltScan d rest
      else
        match d.xrefGetKey x "Alt" with
        | .error _ => figureAltScan d rest
        | .ok a =>
          if a ≠ "" ∧ a ≠ "null" then
            match d.xrefGetKey x "K" with
            | .error _ => figureAltScan d rest
            | .ok k =>
              if k ≠ "" ∧ k ≠ "null" then x :: figureAltScan d rest
              else figureAltScan d rest
          else figureAltScan d rest

def collectFigureAltXrefs (d : Doc) : List Nat :=
  figureAltScan d ((List.range d.xrefLength).drop 1)

/-- Body of the per-image loop of `_check_images_alt_text`: skip images with
both dimensions under 16 px; otherwise report critical when the document is
untagged, serious when the image has no verified alt text, nothing when it
does. -/
def imageFindings (tagged : Bool) (altXs : List Nat) (pageIdx : Nat) : List Image → List PreIssue
  | [] => []
  | img :: rest =>
    let cont := imageFindings tagged altXs pageIdx rest
    if img.width < 16 ∧ img.height < 16 then cont
    else
      let rect := img.rects.head?
      if tagged = false then
        { wcagCriterion := "1.1.1", severity := "critical", page := pageIdx + 1,
          title := "Image Missing Alternative Text", autoFixable := false,
          rect := rect } :: cont
      else if img.xref ∉ altXs then
        { wcagCriterion := "1.1.1", severity := "serious", page := pageIdx + 1,
          title := "Image Missing Alternative Text", autoFixable := false,
          rect := rect } :: cont
      else cont

def imagePages (tagged : Bool) (altXs : List Nat) : Nat → List Page → List PreIssue
  | _, [] => []
  | idx, pg :: rest =>
      imageFindings tagged altXs idx pg.images ++ imagePages tagged altXs (idx + 1) rest

/-- `_check_images_alt_text` (WCAG 1.1.1). -/
def checkImagesAltText (d : Doc) : List PreIssue :=
  let tagged := isTagged d
  let altXs := if tagged then collectFigureAltXrefs d else []
  imagePages tagged altXs 0 d.pages

/-! ### Colour contrast (WCAG 1.4.3) -/

/-- `_int_to_rgb`. -/
def intToRgb (c : Nat) : Nat × Nat × Nat :=
  ((c >>> 16) &&& 255, (c >>> 8) &&& 255, c &&& 255)

/-- `_luminance._lin`: sRGB linearisation of one 0–255 channel. -/
noncomputable def linChannel (c : Nat) : ℝ :=
  let v : ℝ := (c : ℝ) / 255
  if v ≤ 0.04045 then v / 12.92 else ((v + 0.055) / 1.055) ^ (2.4 : ℝ)

/-- `_luminance`: WCAG relative luminance. -/
noncomputable def luminance (r g b : Nat) : ℝ :=
  0.2126 * linChannel r + 0.7152 * linChannel g + 0.0722 * linChannel b

/-- `_contrast`: `(lighter + 0.05) / (darker + 0.05)`. -/
noncomputable def contrastRatio (l1 l2 : ℝ) : ℝ :=
  if l2 ≤ l1 then (l1 + 0.05) / (l2 + 0.05) else (l2 + 0.05) / (l1 + 0.05)

/-- `int(f * 255)` for a float fill channel `f ∈ [0, 1]` (truncation and
floor agree on non-negatives). -/
def ratToByte (q : ℚ) : Nat := (q * 255).floor.toNat

/-- Filled rectangles of `_get_background_fills` (paths without a fill or a
rect are skipped). -/
def fillsOf : List Drawing → List (PdfRect × (Nat × Nat × Nat))
  | [] => []
  | dr :: rest =>
    match dr.fill with
    | none => fillsOf rest
    | some f =>
      match dr.rect with
      | none => fillsOf rest
      | some r => (r, (ratToByte f.1, ratToByte f.2.1, ratToByte f.2.2)) :: fillsOf rest

/-- `_get_background_fills`: a `get_drawings` failure yields no fills. -/
def getBackgroundFills (pg : Page) : List (PdfRect × (Nat × Nat × Nat)) :=
  match pg.drawings with
  | .error _ => []
  | .ok ds => fillsOf ds

/-- `_background_at`: last fill containing or intersecting the text bbox
wins; default white. -/
def backgroundAt (bbox : PdfRect) (fills : List (PdfRect × (Nat × Nat × Nat))) :
    Nat × Nat × Nat :=
  fills.foldl
    (fun bg f => if rectContains f.1 bbox ∨ rectIntersects f.1 bbox then f.2 else bg)
    (255, 255, 255)

/-- `is_large`: `size >= 18 or (size >= 14 and bool(flags & (1 << 4)))`. -/
def isLargeText (size : ℚ) (flags : Nat) : Bool :=
  decide (18 ≤ size) || (decide (14 ≤ size) && decide (flags &&& (1 <<< 4) ≠ 0))

/-- The required contrast ratio: 3.0 for large text, else 4.5. -/
def requiredRatio (size : ℚ) (flags : Nat) : ℚ :=
  if isLargeText size flags then 3 else 4.5

/-- All spans of a page in document order (text blocks only), as iterated
by `_check_color_contrast` and `_auto_tag`. -/
def spansOf (pg : Page) : List Span :=
  ((pg.blocks.filter (fun b => b.btype = 0)).map (fun b => b.lines.flatten)).flatten

/-- A deduplication key of `_check_color_contrast`:
`(page_num, color_int, br, bg, bb)`. -/
abbrev CKey := Nat × Nat × Nat × Nat × Nat

/-- The span loop of `_check_color_contrast` on one page, threading the
`seen` set and emitting findings in span order. -/
noncomputable def contrastSpans (pageIdx : Nat) (fills : List (PdfRect × (Nat × Nat × Nat))) :
    List Span → List CKey → List CKey × List PreIssue
  | [], seen => (seen, [])
  | sp :: rest, seen =>
    if pyStrip sp.text = "" then contrastSpans pageIdx fills rest seen
    else if sp.size < 8 then contrastSpans pageIdx fills rest seen
    else
      let t := intToRgb sp.color
      let b := backgroundAt sp.bbox fills
      let key : CKey := (pageIdx, sp.color, b)
      if key ∈ seen then contrastSpans pageIdx fills rest seen
      else
        let seen' := seen ++ [key]
        let ratio := contrastRatio (luminance t.1 t.2.1 t.2.2) (luminance b.1 b.2.1 b.2.2)
        let required := requiredRatio sp.size sp.flags
        if ratio < (required : ℝ) then
          let res := contrastSpans pageIdx fills rest seen'
          (res.1,
           { wcagCriterion := "1.4.3",
             severity := if ratio < (3 : ℝ) then "serious" else "moderate",
             page := pageIdx + 1, title := "Insufficient Colour Contrast",
             autoFixable := false, rect := some sp.bbox } :: res.2)
        else contrastSpans pageIdx fills rest seen'

/-- The page loop of `_check_color_contrast` (the `seen` set lives outside
the page loop in the source). -/
noncomputable def contrastPages : Nat → List Page → List CKey → List PreIssue
  | _, [], _ => []
  | idx, pg :: rest, seen =>
    let fills := getBackgroundFills pg
    let res := contrastSpans idx fills (spansOf pg) seen
    res.2 ++ contrastPages (idx + 1) rest res.1

/-- `_check_color_contrast` (WCAG 1.4.3). -/
noncomputable def checkColorContrast (d : Doc) : List PreIssue :=
  contrastPages 0 d.pages []

/-! ### Form fields, links, headings, tab order -/

/-- The widget loop of `_check_form_fields` on one page. -/
def widgetFindings (pageIdx : Nat) : List Widget → List PreIssue
  | [] => []
  | w :: rest =>
    if pyStrip (w.fieldName.getD "") = "" ∧ pyStrip (w.fieldLabel.getD "") = "" ∧
        pyStrip (w.fieldTooltip.getD "") = "" then
      { wcagCriterion := "4.1.2", severity := "critical", page := pageIdx + 1,
        title := "Form Field Missing Accessible Name", autoFixable := false,
        rect := some w.rect } :: widgetFindings pageIdx rest
    else widgetFindings pageIdx rest

def formFieldPages : Nat → List Page → List PreIssue
  | _, [] => []
  | idx, pg :: rest =>
    (match pg.widgets with
     | .error _ => []
     | .ok ws => widgetFindings idx ws) ++ formFieldPages (idx + 1) rest

/-- `_check_form_fields` (WCAG 4.1.2); the per-page `try` makes a widget
enumeration failure yield no findings for that page. -/
def checkFormFields (d : Doc) : List PreIssue :=
  formFieldPages 0 d.pages

/-- `_GENERIC_LINK_TEXTS`. -/
def genericLinkTexts : List String :=
  ["click here", "here", "read more", "more", "link", "click",
   "this", "see here", "go", "see more", "find out more", "learn more",
   "details", "info", "information", "view", "open", "download"]

/-- `rect + (-3, -3, 3, 3)`. -/
def expandRect (r : PdfRect) : PdfRect :=
  (r.1 - 3, r.2.1 - 3, r.2.2.1 + 3, r.2.2.2 + 3)

/-- `_text_in_rect`: words whose bboxes intersect the expanded rectangle,
joined with spaces. -/
def textInRect (words : List Word) (r : PdfRect) : String :=
  String.intercalate " "
    ((words.filter (fun w => decide (rectIntersects w.rect (expandRect r)))).map
      (fun w => w.text))

/-- The link loop of `_check_links` on one page.  A link participates when
`link.get("uri") or link.get("page")` is not `None` (an empty uri string is
falsy and falls back to the page target). -/
def linkFindings (pageIdx : Nat) (words : List Word) : List LinkAnn → List PreIssue
  | [] => []
  | lk :: rest =>
    let cont := linkFindings pageIdx words rest
    let hasTarget : Bool :=
      match lk.uri with
      | some u => if u = "" then lk.pageTarget.isSome else true
      | none => lk.pageTarget.isSome
    if hasTarget = false then cont
    else
      let linkText := pyStrip (textInRect words lk.fromRect)
      let normalised := linkText.toLower
      if normalised ∈ genericLinkTexts ∨ normalised = "" then
        { wcagCriterion := "2.4.4", severity := "moderate", page := pageIdx + 1,
          title := "Non-descriptive Link Text", autoFixable := false,
          rect := some lk.fromRect } :: cont
      else cont

def linkPages : Nat → List Page → List PreIssue
  | _, [] => []
  | idx, pg :: rest => linkFindings idx pg.words pg.links ++ linkPages (idx + 1) rest

/-- `_check_links` (WCAG 2.4.4). -/
def checkLinks (d : Doc) : List PreIssue :=
  linkPages 0 d.pages

def headingTagNames : List String :=
  ["/H1", "/H2", "/H3", "/H4", "/H5", "/H6", "/H"]

/-- The xref scan of `_check_heading_structure`; per-xref lookup failures
are skipped. -/
def headingScan (d : Doc) : List Nat → Bool
  | [] => false
  | x :: rest =>
    match d.xrefGetKey x "S" with
    | .error _ => headingScan d rest
    | .ok s =>
      if s ≠ "" ∧ headingTagNames.any (fun t => strContainsSub s t) then true
      else headingScan d rest

/-- `_check_heading_structure` (WCAG 2.4.6): tagged multi-page documents
with no heading tag among the first `min(xref_length, 2000)` xrefs. -/
def checkHeadingStructure (d : Doc) : List PreIssue :=
  if isTagged d = false then []
  else if d.pages.length < 2 then []
  else if headingScan d ((List.range (min d.xrefLength 2000)).drop 1) then []
  else
    [{ wcagCriterion := "2.4.6", severity := "moderate", page := 0,
       title := "No Heading Structure Detected", autoFixable := false, rect := none }]

/-- The page loop of `_check_tab_order`; the single `try` wraps the whole
loop, so a lookup failure stops the scan but keeps earlier findings. -/
def tabOrderScan (d : Doc) : Nat → List Page → List PreIssue
  | _, [] => []
  | idx, pg :: rest =>
    match d.xrefGetKey pg.xref "Tabs" with
    | .error _ => []
    | .ok t =>
      (if t ≠ "" ∧ t ≠ "null" ∧ t ≠ "/S" then
        [{ wcagCriterion := "1.3.2", severity := "moderate", page := idx + 1,
           title := "Tab Order Does Not Follow Structure", autoFixable := false,
           rect := none }]
       else []) ++ tabOrderScan d (idx + 1) rest

/-- `_check_tab_order` (WCAG 1.3.2). -/
def checkTabOrder (d : Doc) : List PreIssue :=
  if isTagged d then tabOrderScan d 0 d.pages else []

/-! ### analyze -/

/-- The payloads of all ten checks in the order `analyze` runs them. -/
noncomputable def allPre (d : Doc) : List PreIssue :=
  checkDocumentTitle d ++ checkDocumentLanguage d ++ checkTaggedPdf d ++
  checkBookmarks d ++ checkImagesAltText d ++ checkColorContrast d ++
  checkFormFields d ++ checkLinks d ++ checkHeadingStructure d ++ checkTabOrder d

/-- `PDFAccessibilityAnalyzer.analyze`: reset `self.issues` and
`self._counter`, then run the ten checks in order. -/
noncomputable def analyze (d : Doc) (s : AState) : AState :=
  let s0 : AState := { s with issues := [], counter := 0 }
  let s1 := addAll s0 (checkDocumentTitle d)
  let s2 := addAll s1 (checkDocumentLanguage d)
  let s3 := addAll s2 (checkTaggedPdf d)
  let s4 := addAll s3 (checkBookmarks d)
  let s5 := addAll s4 (checkImagesAltText d)
  let s6 := addAll s5 (checkColorContrast d)
  let s7 := addAll s6 (checkFormFields d)
  let s8 := addAll s7 (checkLinks d)
  let s9 := addAll s8 (checkHeadingStructure d)
  addAll s9 (checkTabOrder d)

/-- The finding sequence of one fresh analysis run. -/
noncomputable def analyzeIssues (d : Doc) : List Issue :=
  (analyze d { issues := [], counter := 0 }).issues

/-! ### Remediator (`pdf_engine/remediator.py`) -/

/-- `PDFRemediator.fix_document_title`: write the stripped title into the
metadata and save in place (a single atomic metadata write). -/
def fixDocumentTitle (d : Doc) (title : String) : Doc :=
  { d with metadataTitle := some (pyStrip title) }

/-- The optional OCR collaborator: availability of `PIL` + `pytesseract`
(`_OCR_AVAILABLE`) and the text `_extract_text_ocr` returns for an image
xref (already stripped). -/
structure OcrEnv where
  available : Bool
  extractText : Nat → String

/-- `best_xref, best_area` selection: the first image of strictly maximal
pixel area. -/
def bestImage (imgs : List Image) : Option Nat × Nat :=
  imgs.foldl
    (fun acc img =>
      if acc.2 < img.width * img.height then (some img.xref, img.width * img.height)
      else acc)
    (none, 0)

/-- The OCR overlay layout loop: lines at `x0`, starting at `y0`, fontsize
11, blank lines advance `11 * 1.2`, written lines advance `11 * 1.4`, and
the loop breaks when `y + 11` would exceed `height - 36`. -/
def layoutOcrLines (x0 hLimit : ℚ) : List String → ℚ → List OverlayLine
  | [], _ => []
  | line :: rest, y =>
    let l := pyStrip line
    if l = "" then layoutOcrLines x0 hLimit rest (y + 66/5)
    else if hLimit < y + 11 then []
    else (x0, y, l) :: layoutOcrLines x0 hLimit rest (y + 77/5)

/-- The page loop of `_ocr_pages` (assuming OCR is available): pages with
extractable text or without images are skipped; otherwise the largest
image is recognised and a non-empty result is written as an invisible
overlay. -/
def ocrPagesGo (env : OcrEnv) : List Page → List Page × Nat
  | [] => ([], 0)
  | pg :: rest =>
    let res := ocrPagesGo env rest
    if pyStrip pg.rawText ≠ "" then (pg :: res.1, res.2)
    else if pg.images = [] then (pg :: res.1, res.2)
    else
      match (bestImage pg.images).1 with
      | none => (pg :: res.1, res.2)
      | some x =>
        let txt := env.extractText x
        if txt = "" then (pg :: res.1, res.2)
        else
          let x0 := pg.rect.1 + 36
          let y0 := pg.rect.2.1 + 36
          let hLimit := (pg.rect.2.2.2 - pg.rect.2.1) - 36
          let tl := layoutOcrLines x0 hLimit (txt.splitOn "\n") y0
          ({ pg with overlays := pg.overlays ++ tl } :: res.1, res.2 + 1)

/-- `PDFRemediator._ocr_pages`: a no-op returning 0 when OCR is
unavailable. -/
def ocrPages (env : OcrEnv) (d : Doc) : Doc × Nat :=
  if env.available = false then (d, 0)
  else
    let res := ocrPagesGo env d.pages
    ({ d with pages := res.1 }, res.2)

/-- The heading/paragraph classifier of `_auto_tag` (computed per span but
never persisted into a structure tree — a documented limitation). -/
def classifyTag (size : ℚ) (flags : Nat) : String :=
  if 18 ≤ size ∧ flags &&& (1 <<< 4) ≠ 0 then "H1"
  else if 15 ≤ size ∧ flags &&& (1 <<< 4) ≠ 0 then "H2"
  else if 13 ≤ size ∧ flags &&& (1 <<< 4) ≠ 0 then "H3"
  else "P"

/-- The span loop of `_auto_tag`: `tags_added` is incremented once per
non-empty span, whatever `classifyTag` returns. -/
def autoTagSpans : List Span → Nat
  | [] => 0
  | sp :: rest => (if pyStrip sp.text = "" then 0 else 1) + autoTagSpans rest

def autoTagPages : List Page → Nat
  | [] => 0
  | pg :: rest => autoTagSpans (spansOf pg) + autoTagPages rest

/-- `PDFRemediator._auto_tag`: counts heading/paragraph classifications of
the document's text spans; it never mutates the document. -/
def autoTag (d : Doc) : Nat :=
  autoTagPages d.pages

/-- `PDFRemediator.perform_ocr_and_tag`: OCR pass, tag pass, then a
content-preserving save-to-temp / atomic-replace / reopen (modelled as the
identity on the document content).  Returns
`(document, pages_ocrd, tags_added)`; the language argument is accepted but
never forwarded to the OCR engine, as in the source. -/
def performOcrAndTag (env : OcrEnv) (d : Doc) (_lang : String) : Doc × Nat × Nat :=
  let res := ocrPages env d
  let tagsAdded := autoTag res.1
  (res.1, res.2, tagsAdded)

/-! ### Web layer (`app.py`) -/

/-- The `fix_title` branch of the `/remediate` route: an empty (or
whitespace-only) title is rejected with an error before
`fix_document_title` is called, leaving the document untouched. -/
def appFixTitle (d : Doc) (title : String) : Except String Unit × Doc :=
  let t := pyStrip title
  if t = "" then (.error "Title cannot be empty", d)
  else (.ok (), fixDocumentTitle d t)

/-! ### Spec-side reformulations used by individual claims -/

/-- Projection of an issue to the attributes the spec's testable properties
talk about (criterion, severity, page, auto-fixable). -/
def viewIssue (i : Issue) : String × String × Nat × Bool :=
  (i.wcagCriterion, i.severity, i.page, i.autoFixable)

def viewPre (p : PreIssue) : String × String × Nat × Bool :=
  (p.wcagCriterion, p.severity, p.page, p.autoFixable)

/-- Pages paired with their 0-based index. -/
def enumFrom {α : Type} (i : Nat) : List α → List (Nat × α)
  | [] => []
  | a :: t => (i, a) :: enumFrom (i + 1) t

/-- The 1.1.1 findings as described by the (amended) spec sentence: one
finding per image that is at least 16 px wide *or* at least 16 px tall and
lacks verified alt text; severity critical for an untagged document, else
serious. -/
def specImageFindings (d : Doc) : List (String × String × Nat) :=
  let tagged := isTagged d
  let altXs := if tagged then collectFigureAltXrefs d else []
  ((enumFrom 0 d.pages).map (fun ip =>
    ((ip.2.images.filter (fun img =>
        decide (¬ (img.width < 16 ∧ img.height < 16)) &&
        (decide (tagged = false) || decide (img.xref ∉ altXs)))).map
      (fun _ => ("1.1.1", if tagged then "serious" else "critical", ip.1 + 1))))).flatten

/-- The required contrast ratio as worded by the spec: 3.0 for large text
(at least 18 pt, or at least 14 pt with the bold flag bit set), else
4.5. -/
def specRequiredRatio (size : ℚ) (flags : Nat) : ℚ :=
  if 18 ≤ size ∨ (14 ≤ size ∧ Nat.testBit flags 4) then 3 else 4.5

/-- The tag-classification count as worded by the amended C3: the number of
non-empty text spans of the document. -/
def nonemptySpanCount (d : Doc) : Nat :=
  ((d.pages.map (fun pg => (spansOf pg).countP (fun sp => decide (¬ (pyStrip sp.text = ""))))).sum)

/-! ### Claim C6 document transforms: every fallible accessor fails vs.
every lookup reports the feature as absent -/

/-- A page whose fallible accessors raise. -/
def failPage (p : Page) : Page :=
  { p with drawings := .error (), widgets := .error () }

/-- A page whose fallible accessors report the feature as absent. -/
def absentPage (p : Page) : Page :=
  { p with drawings := .ok [], widgets := .ok [] }

/-- Replace every fallible accessor result by a raised exception. -/
def failAccessors (d : Doc) : Doc :=
  { d with
    pdfCatalog := .error ()
    xrefGetKey := fun _ _ => .error ()
    pages := d.pages.map failPage }

/-- Replace every fallible accessor result by the "feature absent" answer:
missing keys read as `"null"`, no drawings, no widgets. -/
def absentAccessors (d : Doc) : Doc :=
  { d with
    pdfCatalog := .ok 0
    xrefGetKey := fun _ _ => .ok "null"
    pages := d.pages.map absentPage }

/-! ### Concrete fixtures -/

/-- A bare issue value (used for concrete score computations). -/
def mkBareIssue (c s : String) : Issue :=
  { issueId := "", wcagCriterion := c, wcagTitle := "", level := "A",
    severity := s, page := 0, title := "", autoFixable := false, rect := none }

def blankPage : Page :=
  { blocks := [], images := [], drawings := .ok [], widgets := .ok [],
    links := [], words := [], xref := 2, rect := (0, 0, 612, 792),
    rawText := "", overlays := [] }

/-- An untagged document with no pages: every catalog/xref key reads as
`"null"`. -/
def emptyDoc : Doc :=
  { metadataTitle := none, toc := [], pages := [],
    pdfCatalog := .ok 1, xrefGetKey := fun _ _ => .ok "null", xrefLength := 3 }

def onePageDoc : Doc :=
  { emptyDoc with metadataTitle := some "Doc", pages := [blankPage] }

def twoPageDoc : Doc :=
  { emptyDoc with metadataTitle := some "Doc", pages := [blankPage, blankPage] }

/-- An 8 × 100 px image: thinner than 16 px but much taller than 16 px. -/
def thinImage : Image :=
  { xref := 7, width := 8, height := 100, rects := [(10, 10, 18, 110)] }

/-- A one-page untagged document whose only image is `thinImage`, with
title and language present so only image/tagging findings appear. -/
def thinImageDoc : Doc :=
  { emptyDoc with
    metadataTitle := some "Doc"
    pages := [{ blankPage with images := [thinImage] }] }

def helloSpan : Span :=
  { text := "Hello", size := 12, flags := 0, color := 0, bbox := (72, 72, 120, 84) }

def textSpanPage : Page :=
  { blankPage with blocks := [{ btype := 0, lines := [[helloSpan]] }], rawText := "Hello" }

/-- A one-page document with one extractable text span. -/
def textSpanDoc : Doc :=
  { emptyDoc with pages := [textSpanPage] }

/-- The OCR collaborator is unavailable (`_OCR_AVAILABLE = False`). -/
def offOcrEnv : OcrEnv :=
  { available := false, extractText := fun _ => "" }

/-- A 12 pt light-gray text run, colour `0xD9D9D9` = RGB (217, 217, 217). -/
def graySpan : Span :=
  { text := "Sample text", size := 12, flags := 0, color := 14277081,
    bbox := (72, 72, 300, 84) }

/-- One page, one light-gray 12 pt span, no fills: white background. -/
def grayTextDoc : Doc :=
  { emptyDoc with
    metadataTitle := some "Doc"
    pages := [{ blankPage with blocks := [{ btype := 0, lines := [[graySpan]] }] }] }

def blackSpan : Span :=
  { graySpan with color := 0 }

/-- The same page with the span at RGB (0, 0, 0). -/
def blackTextDoc : Doc :=
  { emptyDoc with
    metadataTitle := some "Doc"
    pages := [{ blankPage with blocks := [{ btype := 0, lines := [[blackSpan]] }] }] }

/-! ## Theorems -/

/-- The deduction table factors through the rank table. -/
theorem severityDeduction_eq_dOfRank (s : String) :
    severityDeduction s = dOfRank (sevRank s) := by
  unfold severityDeduction sevRank dOfRank
  split_ifs <;> simp_all

theorem getScore_nil : getScore [] = 100 := by decide

/-- A single critical finding deducts exactly 20 points. -/
theorem getScore_single_critical (i : Issue) (h : i.severity = "critical") :
    getScore [i] = 80 := by
  simp [getScore, worstFold, updWorst, h, severityDeduction]

theorem firstDedup_cons (c : String) (rest : List String) :
    firstDedup (c :: rest) = c :: firstDedup (rest.filter (fun c' => ¬ (c' = c))) := by
  rw [firstDedup]

theorem mem_firstDedup (x : String) : ∀ l : List String, x ∈ firstDedup l ↔ x ∈ l := by
  intro l
  induction l using firstDedup.induct with
  | case1 => simp [firstDedup]
  | case2 c rest ih =>
      rw [firstDedup_cons]
      by_cases hx : x = c
      · simp [hx]
      · simp only [List.mem_cons, hx, false_or, ih, List.mem_filter]
        simp [hx]

theorem firstDedup_append_singleton (c : String) : ∀ l : List String,
    firstDedup (l ++ [c]) =
      if c ∈ l then firstDedup l else firstDedup l ++ [c] := by
  intro l
  induction l using firstDedup.induct with
  | case1 => simp [firstDedup]
  | case2 x rest ih =>
      by_cases hcx : c = x
      · subst hcx
        rw [List.cons_append, firstDedup_cons, firstDedup_cons]
        simp [List.filter_append]
      · rw [List.cons_append, firstDedup_cons, firstDedup_cons, List.filter_append]
        have : List.filter (fun c' => ¬ (c' = x)) [c] = [c] := by simp [hcx]
        rw [this, ih]
        have hmem : (c ∈ List.filter (fun c' => ¬ (c' = x)) rest) ↔ c ∈ rest := by
          simp [List.mem_filter, hcx]
        by_cases hc : c ∈ rest
        · simp [hc, hmem.mpr hc, hcx]
        · simp [hc, hmem, hcx]

theorem foldr_max_append_nat (l : List Nat) (r : Nat) :
    List.foldr max 0 (l ++ [r]) = max (List.foldr max 0 l) r := by
  induction l with
  | nil => simp [Nat.max_comm]
  | cons a t ih =>
      simp only [List.cons_append, List.foldr_cons, ih]
      omega

theorem maxRankOf_append_singleton (issues : List Issue) (f : Issue) (c : String) :
    maxRankOf (issues ++ [f]) c =
      if f.wcagCriterion = c then max (maxRankOf issues c) (sevRank f.severity)
      else maxRankOf issues c := by
  unfold maxRankOf
  rw [List.filter_append]
  by_cases h : f.wcagCriterion = c
  · have hf : List.filter (fun i => decide (i.wcagCriterion = c)) [f] = [f] := by
      simp [h]
    rw [hf, List.map_append, List.map_singleton, foldr_max_append_nat]
    simp [h]
  · have hf : List.filter (fun i => decide (i.wcagCriterion = c)) [f] = [] := by
      simp [h]
    rw [hf, List.append_nil]
    simp [h]

theorem sevRank_le_four (s : String) : sevRank s ≤ 4 := by
  unfold sevRank; split_ifs <;> omega

theorem maxRankOf_le_four (issues : List Issue) (c : String) : maxRankOf issues c ≤ 4 := by
  unfold maxRankOf
  induction issues with
  | nil => simp
  | cons i rest ih =>
      by_cases hi : i.wcagCriterion = c
      · have : List.filter (fun i => decide (i.wcagCriterion = c)) (i :: rest) =
            i :: List.filter (fun i => decide (i.wcagCriterion = c)) rest := by
          simp [List.filter_cons, hi]
        rw [this, List.map_cons, List.foldr_cons]
        exact max_le (sevRank_le_four _) ih
      · have : List.filter (fun i => decide (i.wcagCriterion = c)) (i :: rest) =
            List.filter (fun i => decide (i.wcagCriterion = c)) rest := by
          simp [List.filter_cons, hi]
        rw [this]
        exact ih

theorem maxRankOf_pos (issues : List Issue) (c : String)
    (hrec : ∀ i ∈ issues, 1 ≤ sevRank i.severity)
    (hc : c ∈ issues.map (fun i => i.wcagCriterion)) :
    1 ≤ maxRankOf issues c := by
  unfold maxRankOf
  induction issues with
  | nil => simp at hc
  | cons i rest ih =>
      by_cases hi : i.wcagCriterion = c
      · have : List.filter (fun i => decide (i.wcagCriterion = c)) (i :: rest) =
            i :: List.filter (fun i => decide (i.wcagCriterion = c)) rest := by
          simp [List.filter_cons, hi]
        rw [this, List.map_cons, List.foldr_cons]
        have := hrec i (by simp)
        omega
      · have hstep : List.filter (fun i => decide (i.wcagCriterion = c)) (i :: rest) =
            List.filter (fun i => decide (i.wcagCriterion = c)) rest := by
          simp [List.filter_cons, hi]
        rw [hstep]
        have hc' : c ∈ rest.map (fun i => i.wcagCriterion) := by
          simp only [List.map_cons, List.mem_cons] at hc
          rcases hc with h | h
          · exact absurd h.symm hi
          · exact h
        exact ih (fun j hj => hrec j (by simp [hj])) hc'

theorem map_fst_rankAnnot (l : List (String × String)) :
    (rankAnnot l).map Prod.fst = l.map Prod.fst := by
  simp [rankAnnot, List.map_map]

theorem firstDedup_nodup : ∀ l : List String, (firstDedup l).Nodup := by
  intro l
  induction l using firstDedup.induct with
  | case1 => simp [firstDedup]
  | case2 c rest ih =>
      rw [firstDedup_cons]
      refine List.nodup_cons.mpr ⟨?_, ih⟩
      intro hmem
      have := (mem_firstDedup c _).mp hmem
      simp [List.mem_filter] at this

theorem map_update_eq_self (c : String) (r : Nat) :
    ∀ l : List (String × Nat), (∀ q ∈ l, ¬ (q.1 = c)) →
    l.map (fun q => if q.1 = c then (q.1, max q.2 r) else q) = l := by
  intro l hl
  induction l with
  | nil => rfl
  | cons a t ih =>
      rw [List.map_cons, if_neg (hl a (List.mem_cons_self a t)),
        ih (fun q hq => hl q (List.mem_cons_of_mem a hq))]

theorem rankAnnot_updWorst (c s : String) : ∀ acc : List (String × String),
    (acc.map Prod.fst).Nodup →
    rankAnnot (updWorst acc c s) =
      (if c ∈ acc.map Prod.fst
       then (rankAnnot acc).map
         (fun q => if q.1 = c then (q.1, max q.2 (sevRank s)) else q)
       else rankAnnot acc ++ [(c, sevRank s)]) := by
  intro acc
  induction acc with
  | nil => simp [updWorst, rankAnnot]
  | cons p rest ih =>
      intro hnd
      obtain ⟨c', s'⟩ := p
      simp only [List.map_cons, List.nodup_cons] at hnd
      by_cases hcc : c' = c
      · subst hcc
        have hrest : ∀ q ∈ rankAnnot rest, ¬ (q.1 = c') := by
          intro q hq
          intro hq1
          apply hnd.1
          have h2 : q.1 ∈ (rankAnnot rest).map Prod.fst := List.mem_map_of_mem _ hq
          rw [map_fst_rankAnnot] at h2
          rw [hq1] at h2
          exact h2
        have htail := map_update_eq_self c' (sevRank s) (rankAnnot rest) hrest
        have hupd : updWorst ((c', s') :: rest) c' s =
            (if sevRank s' < sevRank s then (c', s) else (c', s')) :: rest := by
          simp [updWorst]
        rw [hupd, List.map_cons, if_pos (List.mem_cons_self _ _)]
        by_cases hlt : sevRank s' < sevRank s
        · rw [if_pos hlt]
          simp only [rankAnnot, List.map_cons] at htail ⊢
          simp [htail, Nat.max_eq_right (Nat.le_of_lt hlt)]
        · rw [if_neg hlt]
          simp only [rankAnnot, List.map_cons] at htail ⊢
          simp [htail, Nat.max_eq_left (Nat.le_of_not_lt hlt)]
      · have hupd : updWorst ((c', s') :: rest) c s =
            (c', s') :: updWorst rest c s := by
          simp [updWorst, hcc]
        rw [hupd, List.map_cons]
        have ihr := ih hnd.2
        by_cases hc : c ∈ rest.map Prod.fst
        · rw [if_pos hc] at ihr
          rw [if_pos (List.mem_cons_of_mem _ hc)]
          simp only [rankAnnot, List.map_cons] at ihr ⊢
          rw [ihr]
          simp [hcc]
        · rw [if_neg hc] at ihr
          rw [if_neg (show ¬ (c ∈ c' :: rest.map Prod.fst) from by
            simp only [List.mem_cons]
            push_neg
            exact ⟨fun h => hcc h.symm, hc⟩)]
          simp only [rankAnnot, List.map_cons, List.cons_append] at ihr ⊢
          rw [ihr]

theorem worstFold_append_singleton (l : List Issue) (f : Issue) :
    worstFold (l ++ [f]) = updWorst (worstFold l) f.wcagCriterion f.severity := by
  simp [worstFold, List.foldl_append]

theorem maxRankOf_eq_zero_of_not_mem (l : List Issue) (c : String)
    (h : ¬ (c ∈ l.map (fun i => i.wcagCriterion))) : maxRankOf l c = 0 := by
  unfold maxRankOf
  have : l.filter (fun i => decide (i.wcagCriterion = c)) = [] := by
    rw [List.filter_eq_nil_iff]
    intro i hi
    simp only [decide_eq_true_eq]
    intro hic
    exact h (by rw [← hic]; exact List.mem_map_of_mem _ hi)
  rw [this]
  simp

/-- Key invariant: after folding all issues, the `worst` dictionary (viewed
through severity ranks) pairs each criterion — in first-occurrence order —
with the maximal severity rank of its findings. -/
theorem rankAnnot_worstFold (issues : List Issue) :
    rankAnnot (worstFold issues) =
      (firstDedup (issues.map (fun i => i.wcagCriterion))).map
        (fun c => (c, maxRankOf issues c)) := by
  induction issues using List.reverseRecOn with
  | nil => simp [worstFold, rankAnnot, firstDedup]
  | append_singleton l f ih =>
      have hkeys : (worstFold l).map Prod.fst =
          firstDedup (l.map (fun i => i.wcagCriterion)) := by
        have h := congrArg (List.map Prod.fst) ih
        rw [map_fst_rankAnnot] at h
        rw [h, List.map_map]
        have hcomp : (Prod.fst ∘ fun c : String => (c, maxRankOf l c)) = id := rfl
        rw [hcomp, List.map_id]
      have hnd : ((worstFold l).map Prod.fst).Nodup := by
        rw [hkeys]; exact firstDedup_nodup _
      rw [worstFold_append_singleton, rankAnnot_updWorst _ _ _ hnd, hkeys]
      rw [List.map_append, List.map_singleton, firstDedup_append_singleton]
      by_cases hc : f.wcagCriterion ∈ l.map (fun i => i.wcagCriterion)
      · rw [if_pos ((mem_firstDedup _ _).mpr hc), if_pos hc, ih, List.map_map]
        apply List.map_congr_left
        intro c hcmem
        by_cases hceq : c = f.wcagCriterion
        · subst hceq
          simp [maxRankOf_append_singleton]
        · have hne : ¬ (f.wcagCriterion = c) := fun h => hceq h.symm
          simp [maxRankOf_append_singleton, hceq, hne]
      · rw [if_neg (fun h => hc ((mem_firstDedup _ _).mp h)), if_neg hc, ih,
          List.map_append, List.map_singleton]
        congr 1
        · apply List.map_congr_left
          intro c hcmem
          have hcl : c ∈ l.map (fun i => i.wcagCriterion) := (mem_firstDedup _ _).mp hcmem
          have : ¬ (f.wcagCriterion = c) := fun h => hc (h ▸ hcl)
          rw [maxRankOf_append_singleton, if_neg this]
        · rw [maxRankOf_append_singleton, if_pos rfl,
            maxRankOf_eq_zero_of_not_mem _ _ hc]
          simp

/-- `get_score` computes exactly the spec's per-criterion formula. -/
theorem getScore_eq_specScore (issues : List Issue) :
    getScore issues = specScore issues := by
  unfold getScore specScore specTotal
  have h1 : ((worstFold issues).map (fun p => severityDeduction p.2)).sum =
      ((rankAnnot (worstFold issues)).map (fun q => dOfRank q.2)).sum := by
    unfold rankAnnot
    rw [List.map_map]
    congr 1
    apply List.map_congr_left
    intro p _
    exact severityDeduction_eq_dOfRank p.2
  rw [h1, rankAnnot_worstFold, List.map_map]
  have hcomp : ((fun q : String × Nat => dOfRank q.2) ∘ fun c : String => (c, maxRankOf issues c)) =
      fun c => dOfRank (maxRankOf issues c) := rfl
  rw [hcomp]

/-! ### Structural lemmas: analyze as batch numbering of check payloads -/

theorem addAll_append (s : AState) (a b : List PreIssue) :
    addAll s (a ++ b) = addAll (addAll s a) b := by
  simp [addAll, List.foldl_append]

theorem analyze_eq_addAll (d : Doc) (s : AState) :
    analyze d s = addAll { issues := [], counter := 0 } (allPre d) := by
  simp only [allPre, addAll_append]
  rfl

theorem addAll_issues : ∀ (ps : List PreIssue) (s : AState),
    (addAll s ps).issues = s.issues ++ numberFrom s.counter ps := by
  intro ps
  induction ps with
  | nil => intro s; simp [addAll, numberFrom]
  | cons p t ih =>
      intro s
      rw [show addAll s (p :: t) = addAll (addOne s p) t from rfl, ih]
      simp [addOne, numberFrom]

theorem analyzeIssues_eq (d : Doc) :
    analyzeIssues d = numberFrom 0 (allPre d) := by
  rw [analyzeIssues, analyze_eq_addAll, addAll_issues]
  rfl

theorem numberFrom_countP (q : String → Bool) : ∀ (ps : List PreIssue) (c : Nat),
    (numberFrom c ps).countP (fun i => q i.wcagCriterion) =
      ps.countP (fun p => q p.wcagCriterion) := by
  intro ps
  induction ps with
  | nil => intro c; rfl
  | cons p t ih =>
      intro c
      rw [numberFrom, List.countP_cons, List.countP_cons, ih]
      rfl

theorem numberFrom_filter_view (q : String → Bool) : ∀ (ps : List PreIssue) (c : Nat),
    ((numberFrom c ps).filter (fun i => q i.wcagCriterion)).map viewIssue =
      (ps.filter (fun p => q p.wcagCriterion)).map viewPre := by
  intro ps
  induction ps with
  | nil => intro c; rfl
  | cons p t ih =>
      intro c
      rw [numberFrom, List.filter_cons, List.filter_cons]
      have hq : q (mkIssue (c + 1) p).wcagCriterion = q p.wcagCriterion := rfl
      rw [hq]
      by_cases h : q p.wcagCriterion
      · rw [if_pos h, if_pos h, List.map_cons, List.map_cons, ih]
        rfl
      · rw [if_neg h, if_neg h, ih]

/-! ### Per-check criterion lemmas -/

theorem checkDocumentTitle_crit (d : Doc) :
    ∀ p ∈ checkDocumentTitle d, p.wcagCriterion = "2.4.2" := by
  intro p hp
  unfold checkDocumentTitle at hp
  split at hp <;> simp_all

theorem checkDocumentLanguage_crit (d : Doc) :
    ∀ p ∈ checkDocumentLanguage d, p.wcagCriterion = "3.1.1" := by
  intro p hp
  unfold checkDocumentLanguage at hp
  split at hp <;> simp_all

theorem checkTaggedPdf_crit (d : Doc) :
    ∀ p ∈ checkTaggedPdf d, p.wcagCriterion = "1.3.1" := by
  intro p hp
  unfold checkTaggedPdf at hp
  split at hp <;> simp_all

theorem checkBookmarks_crit (d : Doc) :
    ∀ p ∈ checkBookmarks d, p.wcagCriterion = "2.4.5" := by
  intro p hp
  unfold checkBookmarks at hp
  split at hp <;> simp_all

theorem imageFindings_crit (t : Bool) (a : List Nat) (i : Nat) :
    ∀ imgs, ∀ p ∈ imageFindings t a i imgs, p.wcagCriterion = "1.1.1" := by
  intro imgs
  induction imgs with
  | nil => intro p hp; simp [imageFindings] at hp
  | cons img rest ih =>
      intro p hp
      simp only [imageFindings] at hp
      split at hp
      · exact ih p hp
      · split at hp
        · rcases List.mem_cons.mp hp with h | h
          · rw [h]
          · exact ih p h
        · split at hp
          · rcases List.mem_cons.mp hp with h | h
            · rw [h]
            · exact ih p h
          · exact ih p hp

theorem imagePages_crit (t : Bool) (a : List Nat) :
    ∀ pgs idx, ∀ p ∈ imagePages t a idx pgs, p.wcagCriterion = "1.1.1" := by
  intro pgs
  induction pgs with
  | nil => intro idx p hp; simp [imagePages] at hp
  | cons pg rest ih =>
      intro idx p hp
      simp only [imagePages] at hp
      rcases List.mem_append.mp hp with h | h
      · exact imageFindings_crit t a idx pg.images p h
      · exact ih (idx + 1) p h

theorem checkImagesAltText_crit (d : Doc) :
    ∀ p ∈ checkImagesAltText d, p.wcagCriterion = "1.1.1" := by
  intro p hp
  unfold checkImagesAltText at hp
  exact imagePages_crit _ _ _ _ p hp

theorem contrastSpans_crit (i : Nat) (fills : List (PdfRect × (Nat × Nat × Nat))) :
    ∀ spans seen, ∀ p ∈ (contrastSpans i fills spans seen).2, p.wcagCriterion = "1.4.3" := by
  intro spans
  induction spans with
  | nil => intro seen p hp; simp [contrastSpans] at hp
  | cons sp rest ih =>
      intro seen p hp
      simp only [contrastSpans] at hp
      split at hp
      · exact ih seen p hp
      · split at hp
        · exact ih seen p hp
        · split at hp
          · exact ih seen p hp
          · split at hp
            · rcases List.mem_cons.mp hp with h | h
              · rw [h]
              · exact ih _ p h
            · exact ih _ p hp

theorem contrastPages_crit :
    ∀ pgs idx seen, ∀ p ∈ contrastPages idx pgs seen, p.wcagCriterion = "1.4.3" := by
  intro pgs
  induction pgs with
  | nil => intro idx seen p hp; simp [contrastPages] at hp
  | cons pg rest ih =>
      intro idx seen p hp
      simp only [contrastPages] at hp
      rcases List.mem_append.mp hp with h | h
      · exact contrastSpans_crit _ _ _ _ p h
      · exact ih _ _ p h

theorem checkColorContrast_crit (d : Doc) :
    ∀ p ∈ checkColorContrast d, p.wcagCriterion = "1.4.3" := by
  intro p hp
  unfold checkColorContrast at hp
  exact contrastPages_crit _ _ _ p hp

theorem widgetFindings_crit (i : Nat) :
    ∀ ws, ∀ p ∈ widgetFindings i ws, p.wcagCriterion = "4.1.2" := by
  intro ws
  induction ws with
  | nil => intro p hp; simp [widgetFindings] at hp
  | cons w rest ih =>
      intro p hp
      simp only [widgetFindings] at hp
      split at hp
      · rcases List.mem_cons.mp hp with h | h
        · rw [h]
        · exact ih p h
      · exact ih p hp

theorem formFieldPages_crit :
    ∀ pgs idx, ∀ p ∈ formFieldPages idx pgs, p.wcagCriterion = "4.1.2" := by
  intro pgs
  induction pgs with
  | nil => intro idx p hp; simp [formFieldPages] at hp
  | cons pg rest ih =>
      intro idx p hp
      simp only [formFieldPages] at hp
      rcases List.mem_append.mp hp with h | h
      · split at h
        · simp at h
        · exact widgetFindings_crit _ _ p h
      · exact ih _ p h

theorem checkFormFields_crit (d : Doc) :
    ∀ p ∈ checkFormFields d, p.wcagCriterion = "4.1.2" := by
  intro p hp
  unfold checkFormFields at hp
  exact formFieldPages_crit _ _ p hp

theorem linkFindings_crit (i : Nat) (ws : List Word) :
    ∀ ls, ∀ p ∈ linkFindings i ws ls, p.wcagCriterion = "2.4.4" := by
  intro ls
  induction ls with
  | nil => intro p hp; simp [linkFindings] at hp
  | cons lk rest ih =>
      intro p hp
      simp only [linkFindings] at hp
      split at hp
      · exact ih p hp
      · split at hp
        · rcases List.mem_cons.mp hp with h | h
          · rw [h]
          · exact ih p h
        · exact ih p hp

theorem linkPages_crit :
    ∀ pgs idx, ∀ p ∈ linkPages idx pgs, p.wcagCriterion = "2.4.4" := by
  intro pgs
  induction pgs with
  | nil => intro idx p hp; simp [linkPages] at hp
  | cons pg rest ih =>
      intro idx p hp
      simp only [linkPages] at hp
      rcases List.mem_append.mp hp with h | h
      · exact linkFindings_crit _ _ _ p h
      · exact ih _ p h

theorem checkLinks_crit (d : Doc) :
    ∀ p ∈ checkLinks d, p.wcagCriterion = "2.4.4" := by
  intro p hp
  unfold checkLinks at hp
  exact linkPages_crit _ _ p hp

theorem checkHeadingStructure_crit (d : Doc) :
    ∀ p ∈ checkHeadingStructure d, p.wcagCriterion = "2.4.6" := by
  intro p hp
  unfold checkHeadingStructure at hp
  split at hp
  · simp at hp
  · split at hp
    · simp at hp
    · split at hp
      · simp at hp
      · simp_all

theorem tabOrderScan_crit (d : Doc) :
    ∀ pgs idx, ∀ p ∈ tabOrderScan d idx pgs, p.wcagCriterion = "1.3.2" := by
  intro pgs
  induction pgs with
  | nil => intro idx p hp; simp [tabOrderScan] at hp
  | cons pg rest ih =>
      intro idx p hp
      simp only [tabOrderScan] at hp
      split at hp
      · simp at hp
      · rcases List.mem_append.mp hp with h | h
        · split at h
          · rw [List.mem_singleton.mp h]
          · simp at h
        · exact ih _ p h

theorem checkTabOrder_crit (d : Doc) :
    ∀ p ∈ checkTabOrder d, p.wcagCriterion = "1.3.2" := by
  intro p hp
  unfold checkTabOrder at hp
  split at hp
  · exact tabOrderScan_crit d _ _ p hp
  · simp at hp

/-! ### countP / filter transfer for a target criterion -/

theorem countP_eq_zero_of_crit {l : List PreIssue} {a : String}
    (h : ∀ p ∈ l, p.wcagCriterion = a) {b : String} (hne : ¬ (a = b)) :
    l.countP (fun p => decide (p.wcagCriterion = b)) = 0 := by
  rw [List.countP_eq_zero]
  intro p hp
  simp only [decide_eq_true_eq]
  rw [h p hp]
  exact hne

theorem countP_eq_length_of_crit {l : List PreIssue} {a : String}
    (h : ∀ p ∈ l, p.wcagCriterion = a) :
    l.countP (fun p => decide (p.wcagCriterion = a)) = l.length := by
  rw [List.countP_eq_length]
  intro p hp
  simp only [decide_eq_true_eq]
  exact h p hp

theorem filter_eq_nil_of_crit {l : List PreIssue} {a : String}
    (h : ∀ p ∈ l, p.wcagCriterion = a) {b : String} (hne : ¬ (a = b)) :
    l.filter (fun p => decide (p.wcagCriterion = b)) = [] := by
  rw [List.filter_eq_nil_iff]
  intro p hp
  simp only [decide_eq_true_eq]
  rw [h p hp]
  exact hne

theorem filter_eq_self_of_crit {l : List PreIssue} {a : String}
    (h : ∀ p ∈ l, p.wcagCriterion = a) :
    l.filter (fun p => decide (p.wcagCriterion = a)) = l := by
  rw [List.filter_eq_self]
  intro p hp
  simp only [decide_eq_true_eq]
  exact h p hp

theorem analyzeIssues_countP (d : Doc) (b : String) :
    (analyzeIssues d).countP (fun i => decide (i.wcagCriterion = b)) =
      (allPre d).countP (fun p => decide (p.wcagCriterion = b)) := by
  rw [analyzeIssues_eq]
  exact numberFrom_countP (fun c => decide (c = b)) (allPre d) 0

theorem allPre_countP_245 (d : Doc) :
    (allPre d).countP (fun p => decide (p.wcagCriterion = "2.4.5")) =
      (checkBookmarks d).length := by
  unfold allPre
  repeat rw [List.countP_append]
  rw [countP_eq_zero_of_crit (checkDocumentTitle_crit d) (by decide),
      countP_eq_zero_of_crit (checkDocumentLanguage_crit d) (by decide),
      countP_eq_zero_of_crit (checkTaggedPdf_crit d) (by decide),
      countP_eq_length_of_crit (checkBookmarks_crit d),
      countP_eq_zero_of_crit (checkImagesAltText_crit d) (by decide),
      countP_eq_zero_of_crit (checkColorContrast_crit d) (by decide),
      countP_eq_zero_of_crit (checkFormFields_crit d) (by decide),
      countP_eq_zero_of_crit (checkLinks_crit d) (by decide),
      countP_eq_zero_of_crit (checkHeadingStructure_crit d) (by decide),
      countP_eq_zero_of_crit (checkTabOrder_crit d) (by decide)]
  omega

theorem allPre_countP_242 (d : Doc) :
    (allPre d).countP (fun p => decide (p.wcagCriterion = "2.4.2")) =
      (checkDocumentTitle d).length := by
  unfold allPre
  repeat rw [List.countP_append]
  rw [countP_eq_length_of_crit (checkDocumentTitle_crit d),
      countP_eq_zero_of_crit (checkDocumentLanguage_crit d) (by decide),
      countP_eq_zero_of_crit (checkTaggedPdf_crit d) (by decide),
      countP_eq_zero_of_crit (checkBookmarks_crit d) (by decide),
      countP_eq_zero_of_crit (checkImagesAltText_crit d) (by decide),
      countP_eq_zero_of_crit (checkColorContrast_crit d) (by decide),
      countP_eq_zero_of_crit (checkFormFields_crit d) (by decide),
      countP_eq_zero_of_crit (checkLinks_crit d) (by decide),
      countP_eq_zero_of_crit (checkHeadingStructure_crit d) (by decide),
      countP_eq_zero_of_crit (checkTabOrder_crit d) (by decide)]
  omega

theorem allPre_filter_242 (d : Doc) :
    (allPre d).filter (fun p => decide (p.wcagCriterion = "2.4.2")) =
      checkDocumentTitle d := by
  unfold allPre
  repeat rw [List.filter_append]
  rw [filter_eq_self_of_crit (checkDocumentTitle_crit d),
      filter_eq_nil_of_crit (checkDocumentLanguage_crit d) (by decide),
      filter_eq_nil_of_crit (checkTaggedPdf_crit d) (by decide),
      filter_eq_nil_of_crit (checkBookmarks_crit d) (by decide),
      filter_eq_nil_of_crit (checkImagesAltText_crit d) (by decide),
      filter_eq_nil_of_crit (checkColorContrast_crit d) (by decide),
      filter_eq_nil_of_crit (checkFormFields_crit d) (by decide),
      filter_eq_nil_of_crit (checkLinks_crit d) (by decide),
      filter_eq_nil_of_crit (checkHeadingStructure_crit d) (by decide),
      filter_eq_nil_of_crit (checkTabOrder_crit d) (by decide)]
  simp

/-! ### Claim C6 machinery: failing lookups behave like absent features -/

theorem isTagged_fail (d : Doc) : isTagged (failAccessors d) = false := rfl

theorem isTagged_absent (d : Doc) : isTagged (absentAccessors d) = false := rfl

theorem imagePages_fail_absent (t : Bool) (a : List Nat) :
    ∀ (pgs : List Page) (idx : Nat),
    imagePages t a idx (pgs.map failPage) = imagePages t a idx (pgs.map absentPage) := by
  intro pgs
  induction pgs with
  | nil => intro idx; rfl
  | cons pg rest ih =>
      intro idx
      simp only [List.map_cons, imagePages]
      rw [ih]
      rfl

theorem contrastPages_fail_absent :
    ∀ (pgs : List Page) (idx : Nat) (seen : List CKey),
    contrastPages idx (pgs.map failPage) seen = contrastPages idx (pgs.map absentPage) seen := by
  intro pgs
  induction pgs with
  | nil => intro idx seen; rfl
  | cons pg rest ih =>
      intro idx seen
      simp only [List.map_cons, contrastPages]
      have hfills : getBackgroundFills (failPage pg) = getBackgroundFills (absentPage pg) := rfl
      have hspans : spansOf (failPage pg) = spansOf (absentPage pg) := rfl
      rw [hfills, hspans, ih]

theorem formFieldPages_fail_absent :
    ∀ (pgs : List Page) (idx : Nat),
    formFieldPages idx (pgs.map failPage) = formFieldPages idx (pgs.map absentPage) := by
  intro pgs
  induction pgs with
  | nil => intro idx; rfl
  | cons pg rest ih =>
      intro idx
      simp only [List.map_cons, formFieldPages]
      rw [ih]
      rfl

theorem linkPages_fail_absent :
    ∀ (pgs : List Page) (idx : Nat),
    linkPages idx (pgs.map failPage) = linkPages idx (pgs.map absentPage) := by
  intro pgs
  induction pgs with
  | nil => intro idx; rfl
  | cons pg rest ih =>
      intro idx
      simp only [List.map_cons, linkPages]
      rw [ih]
      rfl

theorem allPre_fail_absent (d : Doc) :
    allPre (failAccessors d) = allPre (absentAccessors d) := by
  unfold allPre
  have h1 : checkDocumentTitle (failAccessors d) = checkDocumentTitle (absentAccessors d) := rfl
  have h2 : checkDocumentLanguage (failAccessors d) = checkDocumentLanguage (absentAccessors d) := rfl
  have h3 : checkTaggedPdf (failAccessors d) = checkTaggedPdf (absentAccessors d) := rfl
  have h4 : checkBookmarks (failAccessors d) = checkBookmarks (absentAccessors d) := by
    unfold checkBookmarks
    simp [failAccessors, absentAccessors]
  have h5 : checkImagesAltText (failAccessors d) = checkImagesAltText (absentAccessors d) := by
    show imagePages false [] 0 (d.pages.map failPage) = imagePages false [] 0 (d.pages.map absentPage)
    exact imagePages_fail_absent false [] d.pages 0
  have h6 : checkColorContrast (failAccessors d) = checkColorContrast (absentAccessors d) := by
    show contrastPages 0 (d.pages.map failPage) [] = contrastPages 0 (d.pages.map absentPage) []
    exact contrastPages_fail_absent d.pages 0 []
  have h7 : checkFormFields (failAccessors d) = checkFormFields (absentAccessors d) := by
    show formFieldPages 0 (d.pages.map failPage) = formFieldPages 0 (d.pages.map absentPage)
    exact formFieldPages_fail_absent d.pages 0
  have h8 : checkLinks (failAccessors d) = checkLinks (absentAccessors d) := by
    show linkPages 0 (d.pages.map failPage) = linkPages 0 (d.pages.map absentPage)
    exact linkPages_fail_absent d.pages 0
  have h9 : checkHeadingStructure (failAccessors d) = checkHeadingStructure (absentAccessors d) := rfl
  have h10 : checkTabOrder (failAccessors d) = checkTabOrder (absentAccessors d) := rfl
  rw [h1, h2, h3, h4, h5, h6, h7, h8, h9, h10]

/-! ### pyStrip: idempotence (needed for the title round-trip) -/

theorem stripList_eq_rdropWhile (p : Char → Bool) (l : List Char) :
    stripList p l = List.rdropWhile p (List.dropWhile p l) := rfl

theorem dropWhile_cons_self_head (p : Char → Bool) (x : Char) (t : List Char)
    (h : List.dropWhile p (x :: t) = x :: t) : p x = false := by
  by_cases hx : p x
  · rw [List.dropWhile_cons_of_pos hx] at h
    have hle : (List.dropWhile p t).length ≤ t.length :=
      (List.dropWhile_suffix p).length_le
    rw [h] at hle
    simp at hle
  · simpa using hx

theorem stripList_idem (p : Char → Bool) (l : List Char) :
    stripList p (stripList p l) = stripList p l := by
  rw [stripList_eq_rdropWhile, stripList_eq_rdropWhile]
  have hA : List.dropWhile p (List.dropWhile p l) = List.dropWhile p l :=
    List.dropWhile_idempotent p l
  have hpre : List.rdropWhile p (List.dropWhile p l) <+: List.dropWhile p l :=
    List.rdropWhile_prefix p _
  have hS : List.dropWhile p (List.rdropWhile p (List.dropWhile p l)) =
      List.rdropWhile p (List.dropWhile p l) := by
    cases hcase : List.rdropWhile p (List.dropWhile p l) with
    | nil => rfl
    | cons x t =>
        rw [hcase] at hpre
        obtain ⟨r, hr⟩ := hpre
        have hx : p x = false := by
          apply dropWhile_cons_self_head p x (t ++ r)
          have hAr : x :: (t ++ r) = List.dropWhile p l := by
            rw [← hr]; simp
          rw [hAr]
          exact hA
        rw [List.dropWhile_cons_of_neg (by simp [hx])]
  rw [hS, List.rdropWhile_idempotent]

theorem pyStrip_idem (s : String) : pyStrip (pyStrip s) = pyStrip s := by
  unfold pyStrip
  rw [show (String.mk (stripList Char.isWhitespace s.data)).data =
      stripList Char.isWhitespace s.data from rfl]
  rw [stripList_idem]

theorem checkDocumentTitle_fixed (d : Doc) (X : String) (h : ¬ (pyStrip X = "")) :
    checkDocumentTitle (fixDocumentTitle d X) = [] := by
  unfold checkDocumentTitle fixDocumentTitle
  simp only [Option.getD_some]
  have h2 : ¬ (pyStrip (pyStrip X) = "") := by rw [pyStrip_idem]; exact h
  rw [if_neg h2]

theorem checkDocumentTitle_empty (d : Doc) (h : pyStrip (d.metadataTitle.getD "") = "") :
    checkDocumentTitle d =
      [{ wcagCriterion := "2.4.2", severity := "serious", page := 0,
         title := "Missing Document Title", autoFixable := true, rect := none }] := by
  unfold checkDocumentTitle
  rw [if_pos h]

/-! ### Claim C2: the image check against the spec's wording -/

theorem imageFindings_view (t : Bool) (a : List Nat) (i : Nat) :
    ∀ imgs, (imageFindings t a i imgs).map (fun p => (p.wcagCriterion, p.severity, p.page)) =
      (imgs.filter (fun img =>
          decide (¬ (img.width < 16 ∧ img.height < 16)) &&
          (decide (t = false) || decide (img.xref ∉ a)))).map
        (fun _ => ("1.1.1", if t then "serious" else "critical", i + 1)) := by
  intro imgs
  induction imgs with
  | nil => rfl
  | cons img rest ih =>
      simp only [imageFindings, List.filter_cons]
      by_cases hsmall : img.width < 16 ∧ img.height < 16
      · have hcut : (decide (¬ (img.width < 16 ∧ img.height < 16)) &&
            (decide (t = false) || decide (img.xref ∉ a))) = false := by
          simp [hsmall]
        rw [if_pos hsmall, hcut]
        simpa using ih
      · rw [if_neg hsmall]
        cases t with
        | false =>
            have hcond : (decide (¬ (img.width < 16 ∧ img.height < 16)) &&
                (decide ((false : Bool) = false) || decide (img.xref ∉ a))) = true := by
              simp [hsmall]
            rw [if_pos rfl, hcond]
            simpa using ih
        | true =>
            rw [if_neg (by simp)]
            by_cases hmem : img.xref ∈ a
            · rw [if_neg (by simpa using hmem)]
              have hcond : (decide (¬ (img.width < 16 ∧ img.height < 16)) &&
                  (decide ((true : Bool) = false) || decide (img.xref ∉ a))) = false := by
                simp [hsmall, hmem]
              rw [hcond]
              simpa using ih
            · rw [if_pos hmem]
              have hcond : (decide (¬ (img.width < 16 ∧ img.height < 16)) &&
                  (decide ((true : Bool) = false) || decide (img.xref ∉ a))) = true := by
                simp [hsmall, hmem]
              rw [hcond]
              simpa using ih

theorem imagePages_view (t : Bool) (a : List Nat) :
    ∀ pgs idx, (imagePages t a idx pgs).map (fun p => (p.wcagCriterion, p.severity, p.page)) =
      ((enumFrom idx pgs).map (fun ip =>
        ((ip.2.images.filter (fun img =>
            decide (¬ (img.width < 16 ∧ img.height < 16)) &&
            (decide (t = false) || decide (img.xref ∉ a)))).map
          (fun _ => ("1.1.1", if t then "serious" else "critical", ip.1 + 1))))).flatten := by
  intro pgs
  induction pgs with
  | nil => intro idx; rfl
  | cons pg rest ih =>
      intro idx
      simp only [imagePages, enumFrom, List.map_cons, List.flatten_cons, List.map_append]
      rw [imageFindings_view, ih]

theorem checkImagesAltText_spec (d : Doc) :
    (checkImagesAltText d).map (fun p => (p.wcagCriterion, p.severity, p.page)) =
      specImageFindings d := by
  unfold checkImagesAltText specImageFindings
  exact imagePages_view (isTagged d) _ d.pages 0

/-! ### Claim C3: the tag count equals the non-empty span count -/

theorem autoTagSpans_eq_countP (spans : List Span) :
    autoTagSpans spans = spans.countP (fun sp => decide (¬ (pyStrip sp.text = ""))) := by
  induction spans with
  | nil => rfl
  | cons sp rest ih =>
      rw [autoTagSpans, List.countP_cons, ih]
      by_cases h : pyStrip sp.text = ""
      · simp [h]
      · simp [h]
        omega

theorem autoTag_eq_nonemptySpanCount (d : Doc) :
    autoTag d = nonemptySpanCount d := by
  unfold autoTag nonemptySpanCount
  induction d.pages with
  | nil => rfl
  | cons pg rest ih =>
      rw [autoTagPages, List.map_cons, List.sum_cons, ih, autoTagSpans_eq_countP]

/-! ### Claim C10: score monotonicity for recognized severities -/

theorem dOfRank_nonneg (r : Nat) : 0 ≤ dOfRank r := by
  unfold dOfRank; split_ifs <;> norm_num

theorem dOfRank_mono (a b : Nat) (ha : 1 ≤ a) (hab : a ≤ b) (hb : b ≤ 4) :
    dOfRank a ≤ dOfRank b := by
  have ha4 : a ≤ 4 := le_trans hab hb
  interval_cases a <;> interval_cases b <;> simp [dOfRank]

theorem specTotal_append_le (issues : List Issue) (f : Issue)
    (hrec : ∀ i ∈ issues, 1 ≤ sevRank i.severity) :
    specTotal issues ≤ specTotal (issues ++ [f]) := by
  unfold specTotal
  rw [List.map_append, List.map_singleton, firstDedup_append_singleton]
  by_cases hc : f.wcagCriterion ∈ issues.map (fun i => i.wcagCriterion)
  · rw [if_pos hc]
    apply List.sum_le_sum
    intro c hcmem
    by_cases hceq : f.wcagCriterion = c
    · rw [maxRankOf_append_singleton, if_pos hceq]
      subst hceq
      exact dOfRank_mono _ _ (maxRankOf_pos issues _ hrec hc)
        (Nat.le_max_left _ _)
        (Nat.max_le.mpr ⟨maxRankOf_le_four _ _, sevRank_le_four _⟩)
    · rw [maxRankOf_append_singleton, if_neg hceq]
  · rw [if_neg hc, List.map_append, List.map_singleton, List.sum_append, List.sum_singleton]
    have hterms : ((firstDedup (issues.map (fun i => i.wcagCriterion))).map
        (fun c => dOfRank (maxRankOf (issues ++ [f]) c))).sum =
        ((firstDedup (issues.map (fun i => i.wcagCriterion))).map
          (fun c => dOfRank (maxRankOf issues c))).sum := by
      apply congrArg
      apply List.map_congr_left
      intro c hcmem
      have hcl : c ∈ issues.map (fun i => i.wcagCriterion) := (mem_firstDedup _ _).mp hcmem
      have hne : ¬ (f.wcagCriterion = c) := fun h => hc (h ▸ hcl)
      rw [maxRankOf_append_singleton, if_neg hne]
    rw [hterms]
    have := dOfRank_nonneg (maxRankOf (issues ++ [f]) f.wcagCriterion)
    omega

theorem getScore_append_le (issues : List Issue) (f : Issue)
    (hrec : ∀ i ∈ issues, 1 ≤ sevRank i.severity) :
    getScore (issues ++ [f]) ≤ getScore issues := by
  rw [getScore_eq_specScore, getScore_eq_specScore]
  unfold specScore
  have h := specTotal_append_le issues f hrec
  apply max_le_max (le_refl 0)
  omega

/-! ### Claim C9: luminance / contrast arithmetic -/

theorem linChannel_zero : linChannel 0 = 0 := by
  simp only [linChannel]
  rw [if_pos (by norm_num)]
  norm_num

theorem linChannel_255 : linChannel 255 = 1 := by
  simp only [linChannel]
  rw [if_neg (by norm_num)]
  rw [show ((((255:ℕ):ℝ)/255 + 0.055) / 1.055) = 1 by norm_num, Real.one_rpow]

theorem luminance_white : luminance 255 255 255 = 1 := by
  unfold luminance
  rw [linChannel_255]
  norm_num

theorem luminance_black : luminance 0 0 0 = 0 := by
  unfold luminance
  rw [linChannel_zero]
  norm_num

theorem luminance_gray_eq : luminance 217 217 217 = linChannel 217 := by
  unfold luminance
  ring

theorem linChannel_217_lb : (0.6:ℝ) ≤ linChannel 217 := by
  simp only [linChannel]
  rw [if_neg (by norm_num)]
  have hx0 : (0:ℝ) < (((217:ℕ):ℝ)/255 + 0.055)/1.055 := by norm_num
  have hx1 : (((217:ℕ):ℝ)/255 + 0.055)/1.055 ≤ 1 := by norm_num
  have h3 : ((((217:ℕ):ℝ)/255 + 0.055)/1.055) ^ (3:ℝ) ≤
      ((((217:ℕ):ℝ)/255 + 0.055)/1.055) ^ (2.4:ℝ) :=
    Real.rpow_le_rpow_of_exponent_ge hx0 hx1 (by norm_num)
  have h4 : ((((217:ℕ):ℝ)/255 + 0.055)/1.055) ^ (3:ℝ) =
      ((((217:ℕ):ℝ)/255 + 0.055)/1.055) ^ (3:ℕ) := by
    rw [show ((3:ℝ)) = ((3:ℕ):ℝ) by norm_num, Real.rpow_natCast]
  have hcube : (0.6:ℝ) ≤ ((((217:ℕ):ℝ)/255 + 0.055)/1.055) ^ (3:ℕ) := by
    norm_num
  linarith [h3, h4.symm.trans_le h3]

theorem linChannel_217_ub : linChannel 217 < 1 := by
  simp only [linChannel]
  rw [if_neg (by norm_num)]
  exact Real.rpow_lt_one (by norm_num) (by norm_num) (by norm_num)

theorem gray_ratio_lt :
    contrastRatio (luminance 217 217 217) (luminance 255 255 255) < 4.5 := by
  rw [luminance_white, luminance_gray_eq]
  unfold contrastRatio
  have hub := linChannel_217_ub
  have hlb := linChannel_217_lb
  rw [if_neg (by linarith)]
  rw [div_lt_iff₀ (by linarith)]
  nlinarith

theorem black_ratio_not_lt :
    ¬ (contrastRatio (luminance 0 0 0) (luminance 255 255 255) < 4.5) := by
  rw [luminance_white, luminance_black]
  unfold contrastRatio
  rw [if_neg (by norm_num)]
  norm_num

theorem requiredRatio_gray : ((requiredRatio graySpan.size graySpan.flags : ℚ) : ℝ) = 4.5 := by
  have h : requiredRatio graySpan.size graySpan.flags = 4.5 := rfl
  rw [h]
  norm_num

theorem requiredRatio_black : ((requiredRatio blackSpan.size blackSpan.flags : ℚ) : ℝ) = 4.5 := by
  have h : requiredRatio blackSpan.size blackSpan.flags = 4.5 := rfl
  rw [h]
  norm_num

theorem contrastSpans_gray_eval :
    ((contrastSpans 0 [] [graySpan] []).2).map (fun p => p.wcagCriterion) = ["1.4.3"] := by
  simp only [contrastSpans]
  split
  · next h => exact absurd h (by decide)
  · split
    · next h => exact absurd h (by decide)
    · split
      · next h => simp at h
      · split
        · rfl
        · next h =>
            exfalso
            apply h
            rw [requiredRatio_gray]
            exact gray_ratio_lt

theorem contrastSpans_black_eval :
    (contrastSpans 0 [] [blackSpan] []).2 = [] := by
  simp only [contrastSpans]
  split
  · next h => exact absurd h (by decide)
  · split
    · next h => exact absurd h (by decide)
    · split
      · next h => simp at h
      · split
        · next h =>
            exfalso
            apply black_ratio_not_lt
            rw [← requiredRatio_black]
            exact h
        · rfl

theorem checkColorContrast_gray :
    (checkColorContrast grayTextDoc).map (fun p => p.wcagCriterion) = ["1.4.3"] := by
  have h1 : checkColorContrast grayTextDoc =
      (contrastSpans 0 [] [graySpan] []).2 ++
        contrastPages 1 [] (contrastSpans 0 [] [graySpan] []).1 := rfl
  rw [h1]
  rw [show contrastPages 1 [] (contrastSpans 0 [] [graySpan] []).1 = [] from rfl]
  rw [List.append_nil]
  exact contrastSpans_gray_eval

theorem checkColorContrast_black : checkColorContrast blackTextDoc = [] := by
  have h1 : checkColorContrast blackTextDoc =
      (contrastSpans 0 [] [blackSpan] []).2 ++
        contrastPages 1 [] (contrastSpans 0 [] [blackSpan] []).1 := rfl
  rw [h1]
  rw [show contrastPages 1 [] (contrastSpans 0 [] [blackSpan] []).1 = [] from rfl]
  rw [List.append_nil, contrastSpans_black_eval]

theorem allPre_countP_111 (d : Doc) :
    (allPre d).countP (fun p => decide (p.wcagCriterion = "1.1.1")) =
      (checkImagesAltText d).length := by
  unfold allPre
  repeat rw [List.countP_append]
  rw [countP_eq_zero_of_crit (checkDocumentTitle_crit d) (by decide),
      countP_eq_zero_of_crit (checkDocumentLanguage_crit d) (by decide),
      countP_eq_zero_of_crit (checkTaggedPdf_crit d) (by decide),
      countP_eq_zero_of_crit (checkBookmarks_crit d) (by decide),
      countP_eq_length_of_crit (checkImagesAltText_crit d),
      countP_eq_zero_of_crit (checkColorContrast_crit d) (by decide),
      countP_eq_zero_of_crit (checkFormFields_crit d) (by decide),
      countP_eq_zero_of_crit (checkLinks_crit d) (by decide),
      countP_eq_zero_of_crit (checkHeadingStructure_crit d) (by decide),
      countP_eq_zero_of_crit (checkTabOrder_crit d) (by decide)]
  omega

theorem allPre_filter_245 (d : Doc) :
    (allPre d).filter (fun p => decide (p.wcagCriterion = "2.4.5")) =
      checkBookmarks d := by
  unfold allPre
  repeat rw [List.filter_append]
  rw [filter_eq_nil_of_crit (checkDocumentTitle_crit d) (by decide),
      filter_eq_nil_of_crit (checkDocumentLanguage_crit d) (by decide),
      filter_eq_nil_of_crit (checkTaggedPdf_crit d) (by decide),
      filter_eq_self_of_crit (checkBookmarks_crit d),
      filter_eq_nil_of_crit (checkImagesAltText_crit d) (by decide),
      filter_eq_nil_of_crit (checkColorContrast_crit d) (by decide),
      filter_eq_nil_of_crit (checkFormFields_crit d) (by decide),
      filter_eq_nil_of_crit (checkLinks_crit d) (by decide),
      filter_eq_nil_of_crit (checkHeadingStructure_crit d) (by decide),
      filter_eq_nil_of_crit (checkTabOrder_crit d) (by decide)]
  simp

theorem analyzeIssues_filter_242_view (d : Doc) :
    ((analyzeIssues d).filter (fun i => decide (i.wcagCriterion = "2.4.2"))).map viewIssue =
      ((allPre d).filter (fun p => decide (p.wcagCriterion = "2.4.2"))).map viewPre := by
  rw [analyzeIssues_eq]
  exact numberFrom_filter_view (fun c => decide (c = "2.4.2")) (allPre d) 0

theorem analyzeIssues_filter_245_view (d : Doc) :
    ((analyzeIssues d).filter (fun i => decide (i.wcagCriterion = "2.4.5"))).map viewIssue =
      ((allPre d).filter (fun p => decide (p.wcagCriterion = "2.4.5"))).map viewPre := by
  rw [analyzeIssues_eq]
  exact numberFrom_filter_view (fun c => decide (c = "2.4.5")) (allPre d) 0

theorem isLargeText_iff (size : ℚ) (flags : Nat) :
    isLargeText size flags = true ↔ (18 ≤ size ∨ (14 ≤ size ∧ Nat.testBit flags 4)) := by
  unfold isLargeText
  have h16 : (1 <<< 4 : Nat) = 2 ^ 4 := rfl
  rw [h16, Nat.and_two_pow]
  constructor
  · intro h
    rcases Bool.or_eq_true_iff.mp h with h1 | h2
    · exact Or.inl (by simpa using h1)
    · rcases Bool.and_eq_true_iff.mp h2 with ⟨ha, hb⟩
      refine Or.inr ⟨by simpa using ha, ?_⟩
      simp only [decide_eq_true_eq] at hb
      by_contra hbit
      rw [Bool.not_eq_true] at hbit
      rw [hbit] at hb
      simp at hb
  · intro h
    rcases h with h1 | ⟨ha, hb⟩
    · exact Bool.or_eq_true_iff.mpr (Or.inl (by simpa using h1))
    · refine Bool.or_eq_true_iff.mpr (Or.inr (Bool.and_eq_true_iff.mpr ⟨by simpa using ha, ?_⟩))
      simp only [decide_eq_true_eq]
      rw [hb]
      simp

theorem requiredRatio_eq_spec (size : ℚ) (flags : Nat) :
    requiredRatio size flags = specRequiredRatio size flags := by
  unfold requiredRatio specRequiredRatio
  by_cases h : 18 ≤ size ∨ (14 ≤ size ∧ Nat.testBit flags 4)
  · rw [if_pos ((isLargeText_iff size flags).mpr h), if_pos h]
  · rw [if_neg (fun hb => h ((isLargeText_iff size flags).mp hb)), if_neg h]

theorem contrastRatio_eq_max_min (l1 l2 : ℝ) :
    contrastRatio l1 l2 = (max l1 l2 + 0.05) / (min l1 l2 + 0.05) := by
  unfold contrastRatio
  by_cases h : l2 ≤ l1
  · rw [if_pos h, max_eq_left h, min_eq_right h]
  · rw [if_neg h, max_eq_right (le_of_not_le h), min_eq_left (le_of_not_le h)]

theorem sevRank_of_recognized (i : Issue)
    (h : i.severity ∈ ["critical", "serious", "moderate", "minor"]) :
    1 ≤ sevRank i.severity := by
  simp only [List.mem_cons, List.not_mem_nil, or_false] at h
  rcases h with h | h | h | h <;> rw [h] <;> decide

/-! ### Claim theorems -/

/-- Claim C1: for every finding list, the score equals
`max(0, 100 - total)` where `total` sums, over each criterion with at
least one finding, the deduction of that criterion's highest-severity
finding (critical 20, serious 12, moderate 6, minor 2, default 5 for an
unrecognized severity); an empty list scores 100 and a single
critical-severity finding scores 80 (multiple findings on one criterion do
not compound, as the per-criterion formula shows). -/
theorem claim_C1_score_formula :
    (∀ issues : List Issue, getScore issues = specScore issues) ∧
    getScore [] = 100 ∧
    (∀ i : Issue, i.severity = "critical" → getScore [i] = 80) :=
  ⟨getScore_eq_specScore, getScore_nil, getScore_single_critical⟩

theorem claim_C1_score_formula_witness :
    (mkBareIssue "1.3.1" "critical").severity = "critical" ∧
    getScore [mkBareIssue "1.3.1" "critical"] = 80 :=
  ⟨rfl, claim_C1_score_formula.2.2 (mkBareIssue "1.3.1" "critical") rfl⟩

/-- Claim C2 counterexample: an untagged document whose only image is
8 × 100 px — "not at least 16 px wide and 16 px tall" in the claim's
reading — still yields a 1.1.1 finding, because the code skips an image
only when *both* dimensions are under 16. -/
theorem claim_C2_counterexample :
    thinImage.width < 16 ∧ ¬ (16 ≤ thinImage.width ∧ 16 ≤ thinImage.height) ∧
    (analyzeIssues thinImageDoc).countP (fun i => decide (i.wcagCriterion = "1.1.1")) = 1 := by
  refine ⟨by decide, by decide, ?_⟩
  rfl

/-- Claim C2 (amended): an image is skipped only when both its width and
height are under 16 px; every other image lacking verified alt text yields
exactly one 1.1.1 finding on its page, critical if the document is
untagged, else serious — and these are the only 1.1.1 findings `analyze`
produces. -/
theorem claim_C2_image_gate :
    ∀ d : Doc,
      (checkImagesAltText d).map (fun p => (p.wcagCriterion, p.severity, p.page)) =
        specImageFindings d ∧
      (analyzeIssues d).countP (fun i => decide (i.wcagCriterion = "1.1.1")) =
        (specImageFindings d).length := by
  intro d
  refine ⟨checkImagesAltText_spec d, ?_⟩
  rw [analyzeIssues_countP, allPre_countP_111, ← checkImagesAltText_spec d,
    List.length_map]

/-- Claim C3 counterexample: with OCR unavailable, a document with one
extractable text span still reports a tag-classification count of 1, not
0. -/
theorem claim_C3_counterexample :
    offOcrEnv.available = false ∧
    ¬ ((performOcrAndTag offOcrEnv textSpanDoc "eng").2.2 = 0) := by
  refine ⟨rfl, ?_⟩
  rw [show (performOcrAndTag offOcrEnv textSpanDoc "eng").2.2 = 1 from rfl]
  decide

/-- Claim C3 (amended): when the OCR capability is unavailable,
`perform_ocr_and_tag` never raises, leaves the document unchanged and
processes zero pages; the tags-classified count is still computed from the
document's text spans (the number of non-empty spans), so it is zero only
for documents without extractable text. -/
theorem claim_C3_ocr_unavailable :
    ∀ (f : Nat → String) (d : Doc) (lang : String),
      performOcrAndTag { available := false, extractText := f } d lang =
        (d, 0, nonemptySpanCount d) := by
  intro f d lang
  show ((d, 0).1, (d, 0).2, autoTag (d, 0).1) = (d, 0, nonemptySpanCount d)
  rw [show ((d, 0) : Doc × Nat).1 = d from rfl, autoTag_eq_nonemptySpanCount]

/-- Claim C4: the `fix_title` remediation rejects an empty or
whitespace-only title with a caller-visible error before any mutation; the
document is returned untouched. -/
theorem claim_C4_empty_title_rejected :
    ∀ (d : Doc) (title : String), pyStrip title = "" →
      appFixTitle d title = (.error "Title cannot be empty", d) := by
  intro d title h
  unfold appFixTitle
  rw [if_pos h]

theorem claim_C4_empty_title_rejected_witness :
    pyStrip "   " = "" ∧
    appFixTitle emptyDoc "   " = (.error "Title cannot be empty", emptyDoc) :=
  ⟨rfl, claim_C4_empty_title_rejected emptyDoc "   " rfl⟩

/-- Claim C5: `analyze` is deterministic over the document state — the
produced finding sequence (ids, criteria, severities and all other
attributes) does not depend on the analyzer's prior state, and running
`analyze` twice in succession returns the identical state. -/
theorem claim_C5_determinism :
    ∀ (d : Doc) (s t : AState),
      (analyze d s).issues = (analyze d t).issues ∧
      analyze d (analyze d s) = analyze d s :=
  fun _ _ _ => ⟨rfl, rfl⟩

/-- Claim C6: every structural/metadata lookup failure is handled exactly
as the feature being absent: a document whose every fallible accessor
raises analyzes to the same finding sequence as one whose every lookup
reports the feature missing.  (The embedding is total by construction:
every fallible accessor occurrence in the source sits inside the modelled
`try`, so `analyze` returns a finding list for every document.) -/
theorem claim_C6_lookup_failure_is_absence :
    ∀ d : Doc, analyzeIssues (failAccessors d) = analyzeIssues (absentAccessors d) := by
  intro d
  rw [analyzeIssues_eq, analyzeIssues_eq, allPre_fail_absent]

/-- Claim C7 counterexample: `" "` is a non-empty title, yet
`fix_title(doc, " ")` stores the stripped value `""`, so re-analysis still
reports a 2.4.2 finding and the title does not read back as `" "`. -/
theorem claim_C7_counterexample :
    ¬ ((" " : String) = "") ∧
    (analyzeIssues (fixDocumentTitle emptyDoc " ")).countP
      (fun i => decide (i.wcagCriterion = "2.4.2")) = 1 ∧
    ¬ ((fixDocumentTitle emptyDoc " ").metadataTitle = some " ") := by
  refine ⟨by decide, ?_, by decide⟩
  rfl

/-- Claim C7 (amended): for every title whose stripped value is non-empty,
`fix_title` followed by `analyze` yields zero 2.4.2 findings and the title
metadata reads back as the stripped title; conversely a document with
empty-or-absent (stripped-empty) title yields exactly one 2.4.2 finding,
serious, document-level, auto-fixable. -/
theorem claim_C7_title_roundtrip :
    (∀ (d : Doc) (X : String), ¬ (pyStrip X = "") →
      (analyzeIssues (fixDocumentTitle d X)).countP
        (fun i => decide (i.wcagCriterion = "2.4.2")) = 0 ∧
      (fixDocumentTitle d X).metadataTitle = some (pyStrip X)) ∧
    (∀ d : Doc, pyStrip (d.metadataTitle.getD "") = "" →
      ((analyzeIssues d).filter (fun i => decide (i.wcagCriterion = "2.4.2"))).map viewIssue =
        [("2.4.2", "serious", 0, true)]) := by
  constructor
  · intro d X h
    refine ⟨?_, rfl⟩
    rw [analyzeIssues_countP, allPre_countP_242, checkDocumentTitle_fixed d X h]
    rfl
  · intro d h
    rw [analyzeIssues_filter_242_view, allPre_filter_242, checkDocumentTitle_empty d h]
    rfl

theorem claim_C7_title_roundtrip_witness :
    (¬ (pyStrip "My Title" = "") ∧
      (analyzeIssues (fixDocumentTitle emptyDoc "My Title")).countP
        (fun i => decide (i.wcagCriterion = "2.4.2")) = 0 ∧
      (fixDocumentTitle emptyDoc "My Title").metadataTitle = some (pyStrip "My Title")) ∧
    (pyStrip (emptyDoc.metadataTitle.getD "") = "" ∧
      ((analyzeIssues emptyDoc).filter (fun i => decide (i.wcagCriterion = "2.4.2"))).map viewIssue =
        [("2.4.2", "serious", 0, true)]) := by
  refine ⟨⟨by decide, claim_C7_title_roundtrip.1 emptyDoc "My Title" (by decide)⟩,
    ⟨rfl, claim_C7_title_roundtrip.2 emptyDoc rfl⟩⟩

/-- Claim C8: a one-page document never yields a 2.4.5 finding; a document
with at least two pages and no outline entries yields exactly one, of
moderate severity (document-level, not auto-fixable). -/
theorem claim_C8_bookmarks :
    ∀ d : Doc,
      (d.pages.length = 1 →
        (analyzeIssues d).countP (fun i => decide (i.wcagCriterion = "2.4.5")) = 0) ∧
      (2 ≤ d.pages.length → d.toc = [] →
        ((analyzeIssues d).filter (fun i => decide (i.wcagCriterion = "2.4.5"))).map viewIssue =
          [("2.4.5", "moderate", 0, false)]) := by
  intro d
  constructor
  · intro h1
    rw [analyzeIssues_countP, allPre_countP_245]
    unfold checkBookmarks
    rw [if_neg (fun hc : 1 < d.pages.length ∧ d.toc = [] => absurd hc.1 (by omega))]
    rfl
  · intro h2 htoc
    rw [analyzeIssues_filter_245_view, allPre_filter_245]
    unfold checkBookmarks
    rw [if_pos ⟨by omega, htoc⟩]
    rfl

theorem claim_C8_bookmarks_witness :
    (onePageDoc.pages.length = 1 ∧
      (analyzeIssues onePageDoc).countP (fun i => decide (i.wcagCriterion = "2.4.5")) = 0) ∧
    (2 ≤ twoPageDoc.pages.length ∧ twoPageDoc.toc = [] ∧
      ((analyzeIssues twoPageDoc).filter (fun i => decide (i.wcagCriterion = "2.4.5"))).map viewIssue =
        [("2.4.5", "moderate", 0, false)]) :=
  ⟨⟨rfl, (claim_C8_bookmarks onePageDoc).1 rfl⟩,
   ⟨by decide, rfl, (claim_C8_bookmarks twoPageDoc).2 (by decide) rfl⟩⟩

/-- Claim C9: the required contrast ratio is 3.0 for large text (≥ 18 pt,
or ≥ 14 pt with the bold flag bit set) and 4.5 otherwise; the ratio is
`(lighter + 0.05) / (darker + 0.05)` over sRGB-linearized luminances; a
non-empty 12 pt run of RGB (217,217,217) on white falls below 4.5 and
produces a 1.4.3 finding, while the same run at RGB (0,0,0) produces
none. -/
theorem claim_C9_contrast :
    (∀ (size : ℚ) (flags : Nat), requiredRatio size flags = specRequiredRatio size flags) ∧
    (∀ l1 l2 : ℝ, contrastRatio l1 l2 = (max l1 l2 + 0.05) / (min l1 l2 + 0.05)) ∧
    contrastRatio (luminance 217 217 217) (luminance 255 255 255) < 4.5 ∧
    (checkColorContrast grayTextDoc).map (fun p => p.wcagCriterion) = ["1.4.3"] ∧
    checkColorContrast blackTextDoc = [] :=
  ⟨requiredRatio_eq_spec, contrastRatio_eq_max_min, gray_ratio_lt,
   checkColorContrast_gray, checkColorContrast_black⟩

/-- Claim C10 counterexample: the score is not antitone in general —
appending a minor finding to a criterion whose only finding has an
unrecognized severity (deduction 5, rank 0) replaces it with the minor
deduction 2, raising the score from 95 to 98. -/
theorem claim_C10_counterexample :
    getScore [mkBareIssue "1.3.1" "bogus"] = 95 ∧
    getScore ([mkBareIssue "1.3.1" "bogus"] ++ [mkBareIssue "1.3.1" "minor"]) = 98 ∧
    ¬ (getScore ([mkBareIssue "1.3.1" "bogus"] ++ [mkBareIssue "1.3.1" "minor"]) ≤
        getScore [mkBareIssue "1.3.1" "bogus"]) :=
  ⟨by decide, by decide, by decide⟩

/-- Claim C10 (amended): for every finding list whose severities are all
recognized (critical/serious/moderate/minor), appending any additional
finding never increases the score. -/
theorem claim_C10_score_antitone :
    ∀ (issues : List Issue) (f : Issue),
      (∀ i ∈ issues, i.severity ∈ ["critical", "serious", "moderate", "minor"]) →
      getScore (issues ++ [f]) ≤ getScore issues := by
  intro issues f hrec
  exact getScore_append_le issues f (fun i hi => sevRank_of_recognized i (hrec i hi))

theorem claim_C10_score_antitone_witness :
    (mkBareIssue "1.3.1" "critical").severity ∈ ["critical", "serious", "moderate", "minor"] ∧
    getScore ([mkBareIssue "1.3.1" "critical"] ++ [mkBareIssue "1.3.1" "minor"]) ≤
      getScore [mkBareIssue "1.3.1" "critical"] :=
  ⟨by decide,
   claim_C10_score_antitone [mkBareIssue "1.3.1" "critical"] (mkBareIssue "1.3.1" "minor")
     (by decide)⟩
